import Mathlib

/-!
Verification development for the Ozone Manager bootstrap automation script
(`ozone_om_bootstrap.py`).  The script drives a disaster-recovery workflow:
it discovers the cluster topology through the management API, validates
connectivity and operator confirmation, stops an unhealthy follower,
downloads and validates a checkpoint from the leader, installs it in place
of the local database, backs up consensus logs, restarts the follower and
verifies the result.

The embedding below is a shallow model of that workflow.  Remote command
execution (`_run_remote_command`) is abstracted by an oracle
`Env.exec : Nat → String → RCmd → CmdResult` indexed by the number of remote
invocations issued so far, so results may change over time (a process that
is alive during the stop poll and gone later, etc.).  Every remote command
the script can issue is represented by a constructor of `RCmd`, whose
`render` function reproduces the exact shell text built by the Python
f-strings.  Each workflow phase is translated line by line into a function
`Ctx → Bool × Ctx × List Event` returning the phase's boolean result, the
updated run state, and the list of externally visible events it produced
(remote executor calls, management-plane role commands, dry-run log lines,
sleeps).  Management-plane HTTP reads and interactive prompts, which never
go through the remote executor, are modelled as oracle fields of `Env`.
-/

/-- Result of one remote command execution: exit code, stdout, stderr
(mirrors `subprocess.CompletedProcess`). -/
structure CmdResult where
  returncode : Int
  stdout : String
  stderr : String
deriving Repr, DecidableEq

/-! ### Python-style string helpers

The script manipulates command output with `str.strip`, `str.split`,
`in` (substring) tests, `str.lower`, and the `re` module.  The helpers
below reimplement exactly the subset of those behaviours the script uses,
working on `List Char` so that everything reduces well in the kernel. -/

/-- Whitespace characters recognised by Python's `str.strip` / `\s`
(ASCII subset, which is all the script's data contains). -/
def isSpaceChar (c : Char) : Bool :=
  c = ' ' || c = '\t' || c = '\n' || c = '\r' || c = '\x0b' || c = '\x0c'

/-- Word characters matched by the regex class `\w` (ASCII subset). -/
def isWordChar (c : Char) : Bool :=
  c.isAlphanum || c = '_'

/-- Python `str.strip()`. -/
def pyStrip (s : String) : String :=
  String.mk (((s.data.dropWhile isSpaceChar).reverse.dropWhile isSpaceChar).reverse)

/-- Python `str.lower()`. -/
def pyLower (s : String) : String :=
  String.mk (s.data.map Char.toLower)

/-- Does the character list start with the given pattern? -/
def startsWithCL : List Char → List Char → Bool
  | [], _ => true
  | _ :: _, [] => false
  | p :: ps, c :: cs => p = c && startsWithCL ps cs

/-- Substring containment on character lists. -/
def containsCL (pat : List Char) : List Char → Bool
  | [] => startsWithCL pat []
  | c :: cs => startsWithCL pat (c :: cs) || containsCL pat cs

/-- Python's `pat in s` substring test. -/
def strContains (s pat : String) : Bool :=
  containsCL pat.data s.data

/-- Python truthiness of an optional string (`None` and `""` are falsy). -/
def optTruthy : Option String → Bool
  | none => false
  | some s => !(s == "")

/-- Rendering of a possibly-`None` Python value inside an f-string. -/
def pyOpt : Option String → String
  | none => "None"
  | some s => s

/-- Split a character list at every occurrence of a separator
(Python `str.split(sep)` semantics: `"" → [""]`). -/
def splitCharCL (sep : Char) : List Char → List (List Char)
  | [] => [[]]
  | c :: cs =>
    let r := splitCharCL sep cs
    if c = sep then [] :: r
    else
      match r with
      | h :: t => (c :: h) :: t
      | [] => [[c]]

/-- Python `output.strip().split('\n')` as used on roles-command output. -/
def splitLinesPy (s : String) : List String :=
  (splitCharCL '\n' (pyStrip s).data).map String.mk

/-- Drop a literal prefix, returning the rest on success. -/
def dropLit : List Char → List Char → Option (List Char)
  | [], l => some l
  | _ :: _, [] => none
  | p :: ps, c :: cs => if p = c then dropLit ps cs else none

/-! ### Regex subset

The script uses `re.search` / `re.findall` with a fixed set of patterns.
Each pattern is implemented as a matcher that attempts a match anchored at
the current position; `searchScan` / `findallScan` then reproduce
`re.search` (first match, scanning left to right) and `re.findall`
(non-overlapping matches, continuing after each match's end). -/

/-- First anchored match while scanning left to right (`re.search`). -/
def searchScan {α : Type} (m : List Char → Option α) : Nat → List Char → Option α
  | 0, _ => none
  | _ + 1, [] => none
  | fuel + 1, c :: cs =>
    match m (c :: cs) with
    | some x => some x
    | none => searchScan m fuel cs

/-- All non-overlapping matches, continuing after each match
(`re.findall`); matchers return the captured value and the remaining
input after the match. -/
def findallScan {α : Type} (m : List Char → Option (α × List Char)) :
    Nat → List Char → List α
  | 0, _ => []
  | _ + 1, [] => []
  | fuel + 1, c :: cs =>
    match m (c :: cs) with
    | some (x, rest) => x :: findallScan m fuel rest
    | none => findallScan m fuel cs

/-- Matcher for `TAG:\s*([^\s]+)` anchored at the current position (with
`TAG:` passed as the literal including the colon), e.g. the patterns
`LEADER:\s*([^\s]+)` and `FOLLOWER:\s*([^\s]+)`.  Returns the capture and
the rest of the input. -/
def matchTagColonCapture (tag : List Char) (l : List Char) :
    Option (String × List Char) :=
  match dropLit tag l with
  | none => none
  | some r1 =>
    let r2 := r1.dropWhile isSpaceChar
    let cap := r2.takeWhile (fun c => !isSpaceChar c)
    if cap.isEmpty then none
    else some (String.mk cap, r2.dropWhile (fun c => !isSpaceChar c))

/-- Matcher for `(\w+)\s*:\s*TAG\s*\(([^)]+)\)` anchored at the current
position (the `nodeId : LEADER (hostname)` / `nodeId : FOLLOWER (hostname)`
format).  Returns both captures and the rest of the input. -/
def matchIdColonTag (tag : List Char) (l : List Char) :
    Option (String × String × List Char) :=
  let w := l.takeWhile isWordChar
  if w.isEmpty then none
  else
    match (l.dropWhile isWordChar).dropWhile isSpaceChar with
    | ':' :: r2 =>
      match dropLit tag (r2.dropWhile isSpaceChar) with
      | none => none
      | some r4 =>
        match r4.dropWhile isSpaceChar with
        | '(' :: r6 =>
          let g2 := r6.takeWhile (fun c => !(c = ')'))
          if g2.isEmpty then none
          else
            match r6.dropWhile (fun c => !(c = ')')) with
            | ')' :: rest => some (String.mk w, String.mk g2, rest)
            | _ => none
        | _ => none
    | _ => none

/-- Wrapper of `matchIdColonTag` in the shape expected by `findallScan`. -/
def matchIdColonTagP (tag : List Char) (l : List Char) :
    Option ((String × String) × List Char) :=
  match matchIdColonTag tag l with
  | some (a, b, r) => some ((a, b), r)
  | none => none

/-- Expect `\((\w+)\)` at the current position; used by the
`FOLLOWER: hostname (nodeId)` pattern. -/
def parseParenWord : List Char → Option String
  | '(' :: r =>
    let w := r.takeWhile isWordChar
    if w.isEmpty then none
    else
      match r.dropWhile isWordChar with
      | ')' :: _ => some (String.mk w)
      | _ => none
  | _ => none

/-- Backtracking over the greedy `([^\s]+)` group of
`FOLLOWER:\s*([^\s]+)\s*\((\w+)\)`: try hostname prefixes of the maximal
non-space run from longest to shortest (exactly the order Python's
backtracking engine uses). -/
def tryParenSplits (run rest : List Char) : Nat → Option (String × String)
  | 0 => none
  | k + 1 =>
    let g1 := run.take (k + 1)
    let cont := ((run.drop (k + 1)) ++ rest).dropWhile isSpaceChar
    match parseParenWord cont with
    | some g2 => some (String.mk g1, g2)
    | none => tryParenSplits run rest k

/-- Matcher for `TAG:\s*([^\s]+)\s*\((\w+)\)` anchored at the current
position (the `FOLLOWER: hostname (nodeId)` format).  Returns
(hostname capture, node-id capture). -/
def matchTagParenNode (tag : List Char) (l : List Char) :
    Option (String × String) :=
  match dropLit tag l with
  | none => none
  | some r1 =>
    let r2 := r1.dropWhile isSpaceChar
    let run := r2.takeWhile (fun c => !isSpaceChar c)
    if run.isEmpty then none
    else tryParenSplits run (r2.dropWhile (fun c => !isSpaceChar c)) run.length

/-- Matcher for `(\w+)\s+([^\s]+)\s+TAG` anchored at the current position
(the `nodeId hostname FOLLOWER` format).  Returns (node-id, hostname). -/
def matchIdHostTag (tag : List Char) (l : List Char) :
    Option (String × String) :=
  let w := l.takeWhile isWordChar
  if w.isEmpty then none
  else
    let r1 := l.dropWhile isWordChar
    let sp1 := r1.takeWhile isSpaceChar
    if sp1.isEmpty then none
    else
      let r2 := r1.dropWhile isSpaceChar
      let h := r2.takeWhile (fun c => !isSpaceChar c)
      if h.isEmpty then none
      else
        let r3 := r2.dropWhile (fun c => !isSpaceChar c)
        let sp2 := r3.takeWhile isSpaceChar
        if sp2.isEmpty then none
        else
          if startsWithCL tag (r3.dropWhile isSpaceChar) then
            some (String.mk w, String.mk h)
          else none

/-! ### Role-state parsing (`get_om_roles_from_cli` lines 438-463,
`_get_om_roles_from_cli` lines 1365-1376) -/

/-- Parse the leader hostname from roles output: first try
`LEADER:\s*([^\s]+)` (group 1); if that fails, try
`(\w+)\s*:\s*LEADER\s*\(([^)]+)\)` (hostname is group 2). -/
def parseLeader (out : String) : Option String :=
  let l := out.data
  match searchScan (fun s => (matchTagColonCapture "LEADER:".data s).map (·.1))
      (l.length + 1) l with
  | some h => some h
  | none =>
    (searchScan (fun s =>
        (matchIdColonTag "LEADER".data s).map (fun x => x.2.1))
      (l.length + 1) l)

/-- Parse the follower hostname list from roles output:
`re.findall(r'FOLLOWER:\s*([^\s]+)')`, falling back to
`re.findall(r'(\w+)\s*:\s*FOLLOWER\s*\(([^)]+)\)')` (keeping the
hostnames, i.e. the second group) when the first pattern finds nothing. -/
def parseFollowers (out : String) : List String :=
  let l := out.data
  let m1 := findallScan (matchTagColonCapture "FOLLOWER:".data) (l.length + 1) l
  if m1.isEmpty then
    (findallScan (matchIdColonTagP "FOLLOWER".data) (l.length + 1) l).map (·.2)
  else m1

/-- Node-id extraction from one line of `getserviceroles` output for a given
hostname, mirroring the three-pattern cascade at lines 527-544 and
1243-1260: each pattern is tried with `re.search`, and its result is used
only when the hostname occurs in the appropriate capture group. -/
def nodeIdFromLine (host line : String) : Option String :=
  if strContains line host && strContains line "FOLLOWER" then
    let l := line.data
    let p1 := searchScan (fun s =>
        (matchIdColonTag "FOLLOWER".data s).map (fun x => (x.1, x.2.1)))
      (l.length + 1) l
    match p1 with
    | some (g1, g2) =>
      if strContains g2 host then some g1
      else
        match searchScan (matchTagParenNode "FOLLOWER:".data) (l.length + 1) l with
        | some (h, nid) =>
          if strContains h host then some nid
          else
            match searchScan (matchIdHostTag "FOLLOWER".data) (l.length + 1) l with
            | some (nid3, h3) => if strContains h3 host then some nid3 else none
            | none => none
        | none =>
          match searchScan (matchIdHostTag "FOLLOWER".data) (l.length + 1) l with
          | some (nid3, h3) => if strContains h3 host then some nid3 else none
          | none => none
    | none =>
      match searchScan (matchTagParenNode "FOLLOWER:".data) (l.length + 1) l with
      | some (h, nid) =>
        if strContains h host then some nid
        else
          match searchScan (matchIdHostTag "FOLLOWER".data) (l.length + 1) l with
          | some (nid3, h3) => if strContains h3 host then some nid3 else none
          | none => none
      | none =>
        match searchScan (matchIdHostTag "FOLLOWER".data) (l.length + 1) l with
        | some (nid3, h3) => if strContains h3 host then some nid3 else none
        | none => none
  else none

/-- Scan the lines of `getserviceroles` output for the node id of the given
hostname (first line that yields one wins, mirroring the `break`). -/
def extractNodeId (host out : String) : Option String :=
  (splitLinesPy out).findSome? (nodeIdFromLine host)

/-! ### Configuration resolution (`get_om_configuration`, lines 626-777) -/

/-- One configuration item as returned by the management API; the script
reads the keys `value`, `effectiveValue`, `displayValue` and `default`. -/
structure ConfigItem where
  name : String
  value : Option String
  effectiveValue : Option String
  displayValue : Option String
  defaultValue : Option String
deriving Repr, DecidableEq

/-- First truthy element of a list of optional strings (Python's `or`
chain, whose result is only ever consumed under truthiness guards). -/
def firstTruthy : List (Option String) → Option String
  | [] => none
  | o :: rest => if optTruthy o then o else firstTruthy rest

/-- The nested `_extract_value` helper:
`value or effectiveValue or displayValue or default`. -/
def extractValue (i : ConfigItem) : Option String :=
  firstTruthy [i.value, i.effectiveValue, i.displayValue, i.defaultValue]

/-- Accumulator for the role-level configuration scan. -/
structure RoleScan where
  om_db_dir : Option String
  ratis_dir : Option String
  om_http_port : Option String
  om_https_port : Option String
  ssl_enabled : Bool
deriving Repr, DecidableEq

/-- One step of the role-item loop (lines 701-725): each `elif` arm fires
only when the name matches and the extracted value is truthy. -/
def roleScanStep (s : RoleScan) (i : ConfigItem) : RoleScan :=
  let name := i.name
  let val := extractValue i
  if name = "ozone.om.db.dirs" && optTruthy val then { s with om_db_dir := val }
  else if name = "ozone.om.ratis.storage.dir" && optTruthy val then { s with ratis_dir := val }
  else if name = "ozone.om.http-port" && optTruthy val then { s with om_http_port := val }
  else if name = "ozone.om.https-port" && optTruthy val then { s with om_https_port := val }
  else if name = "ssl_enabled" && optTruthy val then
    { s with ssl_enabled := pyLower (pyOpt val) == "true" }
  else if name = "ozone.om.http.port" && optTruthy val then { s with om_http_port := val }
  else if name = "ozone.om.https.port" && optTruthy val then { s with om_https_port := val }
  else s

/-- Accumulator for the service-level configuration scan. -/
structure SvcScan where
  base : RoleScan
  http_kerberos : Bool
deriving Repr, DecidableEq

/-- One step of the service-item loop (lines 729-742): the HTTP Kerberos
flag, plus fallbacks for the directory settings when the role scan left
them unset. -/
def svcScanStep (s : SvcScan) (i : ConfigItem) : SvcScan :=
  let name := i.name
  let val := extractValue i
  if name = "ozone.security.http.kerberos.enabled" && optTruthy val then
    { s with http_kerberos := pyLower (pyOpt val) == "true" }
  else if name = "ozone.om.db.dirs" && optTruthy val && !(optTruthy s.base.om_db_dir) then
    { s with base := { s.base with om_db_dir := val } }
  else if name = "ozone.om.ratis.storage.dir" && optTruthy val && !(optTruthy s.base.ratis_dir) then
    { s with base := { s.base with ratis_dir := val } }
  else s

/-- The resolved configuration: directories (possibly missing), protocol
and port after the SSL/port policy of lines 744-757, and the HTTP
Kerberos flag. -/
structure ResolvedConfig where
  db : Option String
  ratis : Option String
  protocol : String
  port : String
  httpKerberos : Bool
deriving Repr, DecidableEq

/-- Full resolution from service-level and (already group-substituted)
role-level item lists, mirroring lines 701-757. -/
def resolveOmConfig (svcItems roleItems : List ConfigItem) : ResolvedConfig :=
  let r := roleItems.foldl roleScanStep
    { om_db_dir := none, ratis_dir := none, om_http_port := none,
      om_https_port := none, ssl_enabled := false }
  let s := svcItems.foldl svcScanStep { base := r, http_kerberos := false }
  let pp : String × String :=
    if s.base.ssl_enabled && optTruthy s.base.om_https_port then
      ("https", pyOpt s.base.om_https_port)
    else if optTruthy s.base.om_http_port then ("http", pyOpt s.base.om_http_port)
    else ("http", "9874")
  { db := s.base.om_db_dir, ratis := s.base.ratis_dir,
    protocol := pp.1, port := pp.2, httpKerberos := s.http_kerberos }

/-- Lookup of `ozone.security.enabled` in the service configuration
(`check_security_configuration` lines 1393-1398: first matching item, raw
`value` key with default `"false"`). -/
def securityEnabledLookup (items : List ConfigItem) : Bool :=
  match items.find? (fun i => i.name == "ozone.security.enabled") with
  | some i => pyLower (i.value.getD "false") == "true"
  | none => false

/-! ### The remote command vocabulary

Every distinct command string the script passes to `_run_remote_command`
is a constructor here; `render` reproduces the exact f-string text. -/

/-- Remote commands issued through `_run_remote_command`, one constructor
per construction site in the source. -/
inductive RCmd where
  | getconfServiceId : RCmd
  | omRoles (sid : Option String) : RCmd
  | getServiceRoles (sid : String) : RCmd
  | omTransfer (sid nodeId : String) : RCmd
  | pgrepOm : RCmd
  | mktempDir (epoch : Nat) : RCmd
  | curlDownload (kerb : Bool) (protocol host port file : String) : RCmd
  | lsLa (f : String) : RCmd
  | fileCmd (f : String) : RCmd
  | headHexdump (f : String) : RCmd
  | grepErrors (f : String) : RCmd
  | tarTest (f : String) : RCmd
  | curlHead (kerb : Bool) (protocol host port : String) : RCmd
  | mkdirP (dirs : String) : RCmd
  | tarExtract (f d : String) : RCmd
  | cpR (src dst : String) : RCmd
  | mvCmd (src dst : String) : RCmd
  | chownHdfs (p : String) : RCmd
  | findCurrent (ratis : String) : RCmd
  | findLastLog (ratis : String) : RCmd
  | cpLogsGlob (currentDir dstDir : String) : RCmd
  | mvLogsGlob (currentDir dstDir : String) : RCmd
  | rmRf (d : String) : RCmd
  | testKeytab (k : String) : RCmd
  | kinit (k p : String) : RCmd
deriving Repr, DecidableEq, BEq

/-- Exact shell text of each remote command, matching the Python
f-strings character for character. -/
def RCmd.render : RCmd → String
  | .getconfServiceId => "ozone getconf -confKey ozone.service.id"
  | .omRoles (some sid) => "ozone admin om roles -id=" ++ sid
  | .omRoles none => "ozone admin om roles"
  | .getServiceRoles sid => "ozone admin om getserviceroles --service-id=" ++ sid
  | .omTransfer sid nid => "ozone admin om transfer -id=" ++ sid ++ " -n " ++ nid
  | .pgrepOm => "pgrep -f 'org.apache.hadoop.ozone.om.OzoneManagerStarter'"
  | .mktempDir epoch => "mktemp -d /tmp/om_bootstrap_" ++ toString epoch ++ "_XXXXXX"
  | .curlDownload kerb protocol host port file =>
    "curl -k -s " ++ (if kerb then "--negotiate -u : " else "")
      ++ protocol ++ "://" ++ host ++ ":" ++ port
      ++ "/dbCheckpoint?flushBeforeCheckpoint=true -o " ++ file
  | .lsLa f => "ls -la " ++ f
  | .fileCmd f => "file " ++ f
  | .headHexdump f => "head -c 32 " ++ f ++ " | hexdump -C"
  | .grepErrors f =>
    "grep -i 'error\\|exception\\|failed' " ++ f ++ " | head -5"
  | .tarTest f => "tar -tf " ++ f ++ " > /dev/null 2>&1"
  | .curlHead kerb protocol host port =>
    "curl -k -I -s " ++ (if kerb then "--negotiate -u : " else "")
      ++ protocol ++ "://" ++ host ++ ":" ++ port ++ "/dbCheckpoint"
  | .mkdirP dirs => "mkdir -p " ++ dirs
  | .tarExtract f d => "tar -xvf " ++ f ++ " -C " ++ d
  | .cpR src dst => "cp -r " ++ src ++ " " ++ dst
  | .mvCmd src dst => "mv " ++ src ++ " " ++ dst
  | .chownHdfs p => "chown -R hdfs:hdfs " ++ p
  | .findCurrent ratis => "find " ++ ratis ++ " -name 'current' -type d | head -1"
  | .findLastLog ratis =>
    "find " ++ ratis ++ " -name 'log_*' -type f -printf '%T@ %p\n' | sort -n | tail -1"
  | .cpLogsGlob currentDir dstDir =>
    "cp " ++ currentDir ++ "/log* " ++ dstDir ++ "/ 2>/dev/null || true"
  | .mvLogsGlob currentDir dstDir =>
    "mv " ++ currentDir ++ "/log* " ++ dstDir ++ "/original/ 2>/dev/null || true"
  | .rmRf d => "rm -rf " ++ d
  | .testKeytab k => "test -f " ++ k ++ " && echo 'EXISTS' || echo 'NOT_FOUND'"
  | .kinit k p => "kinit -kt " ++ k ++ " " ++ p

/-- Commands that change state on the remote host (directory or file
creation, moves, deletion, ownership, leadership transfer, credential
cache updates) as opposed to pure reads/queries. -/
def RCmd.mutatesRemoteState : RCmd → Bool
  | .mktempDir _ => true
  | .mkdirP _ => true
  | .tarExtract _ _ => true
  | .cpR _ _ => true
  | .mvCmd _ _ => true
  | .chownHdfs _ => true
  | .cpLogsGlob _ _ => true
  | .mvLogsGlob _ _ => true
  | .rmRf _ => true
  | .curlDownload _ _ _ _ _ => true
  | .omTransfer _ _ => true
  | .kinit _ _ => true
  | _ => false

/-- Commands whose construction sites sit behind an `if self.dry_run`
guard in the source (logged but not executed during a dry run). -/
def RCmd.dryGuarded : RCmd → Bool
  | .curlDownload _ _ _ _ _ => true
  | .tarExtract _ _ => true
  | .cpR _ _ => true
  | .mvCmd _ _ => true
  | .chownHdfs _ => true
  | .cpLogsGlob _ _ => true
  | .mvLogsGlob _ _ => true
  | .kinit _ _ => true
  | _ => false

/-- Externally visible events of a run: executed remote commands (with
the `use_sudo` argument as passed), management-plane role commands,
dry-run log lines of commands that were *not* executed, and sleeps. -/
inductive Event where
  | remote (host : String) (cmd : RCmd) (useSudo : Bool) : Event
  | roleCommand (action roleName : String) : Event
  | dryLog (cmd : RCmd) : Event
  | dryLogRole (action roleName : String) : Event
  | sleepSec (n : Nat) : Event
deriving Repr, DecidableEq, BEq

/-- Is the event an executed remote command? -/
def Event.isRemote : Event → Bool
  | .remote _ _ _ => true
  | _ => false

/-- Seconds slept by an event (zero for non-sleep events). -/
def Event.sleepSeconds : Event → Nat
  | .sleepSec n => n
  | _ => 0

/-- Number of executed remote commands in an event list. -/
def remoteCount (l : List Event) : Nat := (l.filter Event.isRemote).length

/-- Total seconds slept over an event list. -/
def sleepSum (l : List Event) : Nat := (l.map Event.sleepSeconds).sum

/-! ### Run state and environment -/

/-- The mutable per-run state of `OzoneOMBootstrap` (its `self` fields as
set in `__init__`, lines 120-172, and mutated by the phases). -/
structure BootstrapState where
  follower_host : String
  dry_run : Bool
  keytab : Option String
  principal : Option String
  ssh_user : Option String
  sudo_user : Option String
  enable_leadership_transfer_test : Bool
  epoch_time : Nat
  backup_dir : String
  service_found : Bool
  service_id : Option String
  leader_host : Option String
  follower_role : Option String
  om_db_dir : Option String
  ratis_dir : Option String
  om_http_port : Option String
  om_https_port : Option String
  om_protocol : Option String
  om_port : Option String
  ozone_security_enabled : Bool
  ozone_http_kerberos_enabled : Bool
  temp_dir : Option String
  om_role_was_stopped : Bool
  leader_ratis_log_before : Option String
  follower_ratis_log_before : Option String
deriving Repr, DecidableEq

/-- Initial state exactly as constructed in `__init__`: all discovery,
configuration and tracking fields unset, `om_role_was_stopped = False`,
and `backup_dir = "/backup/om_bootstrap_{epoch}"`. -/
def initState (follower_host : String) (dry_run : Bool)
    (keytab principal ssh_user sudo_user : Option String)
    (enable_ltt : Bool) (epoch : Nat) : BootstrapState :=
  { follower_host := follower_host, dry_run := dry_run,
    keytab := keytab, principal := principal,
    ssh_user := ssh_user, sudo_user := sudo_user,
    enable_leadership_transfer_test := enable_ltt, epoch_time := epoch,
    backup_dir := "/backup/om_bootstrap_" ++ toString epoch,
    service_found := false, service_id := none, leader_host := none,
    follower_role := none, om_db_dir := none, ratis_dir := none,
    om_http_port := none, om_https_port := none,
    om_protocol := none, om_port := none,
    ozone_security_enabled := false, ozone_http_kerberos_enabled := false,
    temp_dir := none, om_role_was_stopped := false,
    leader_ratis_log_before := none, follower_ratis_log_before := none }

/-- Run context: the bootstrap state plus the number of remote executor
invocations issued so far (the index fed to the execution oracle). -/
structure Ctx where
  st : BootstrapState
  calls : Nat
deriving Repr, DecidableEq

/-- Environment oracle: remote execution results (indexed by invocation
count, host and command) plus the outcomes of the management-plane HTTP
reads and interactive prompts, which do not go through the remote
executor. -/
structure Env where
  exec : Nat → String → RCmd → CmdResult
  cmHost : String
  discoverOk : Bool
  serviceIdFromCm : Option String
  sshOk : Bool
  sudoOk : Bool
  sudoUserCollected : Option String
  sudoRetestOk : Bool
  promptOk : Bool
  followerRoleNameFromCm : Option String
  svcItems : List ConfigItem
  roleItems : List ConfigItem
  omGroupExists : Bool
  groupItems : List ConfigItem
  candidateHosts : List String

/-- One invocation of the remote executor: obtain the oracle's result,
advance the invocation counter, and record the event (host, command, and
the `use_sudo` argument as passed at the call site). -/
def runCmd (env : Env) (c : Ctx) (host : String) (cmd : RCmd) (useSudo : Bool) :
    CmdResult × Ctx × Event :=
  (env.exec c.calls host cmd, { c with calls := c.calls + 1 },
   Event.remote host cmd useSudo)

/-! ### The remote executor adapter (`_run_remote_command`, lines 1305-1343) -/

/-- The fixed `timeout=300` passed to `subprocess.run` (line 1337). -/
def remote_command_timeout_seconds : Nat := 300

/-- The synthetic result returned when the subprocess times out
(line 1341): `CompletedProcess(ssh_cmd, -1, "", "Command timed out")`. -/
def timed_out_result : CmdResult :=
  { returncode := -1, stdout := "", stderr := "Command timed out" }

/-- The kinit-prefixing step of `_run_remote_command` (lines 1308-1316):
when Ozone security is enabled and the command text mentions `ozone` or
`admin`, prefix a `kinit` (with keytab and principal when both are
given). -/
def kinit_wrap (st : BootstrapState) (command : String) : String :=
  if st.ozone_security_enabled
      && (strContains (pyLower command) "ozone" || strContains (pyLower command) "admin") then
    if optTruthy st.keytab && optTruthy st.principal then
      "kinit -kt " ++ pyOpt st.keytab ++ " " ++ pyOpt st.principal ++ " && " ++ command
    else
      "kinit && " ++ command
  else command

/-- The full command string handed to `ssh` (lines 1308-1322): the
kinit-wrapped command, additionally wrapped in `sudo -u <sudo_user>` only
when `use_sudo` is set, a sudo user is configured, and the SSH user is
not root. -/
def build_final_command (st : BootstrapState) (command : String) (use_sudo : Bool) :
    String :=
  let kcmd := kinit_wrap st command
  if use_sudo && optTruthy st.sudo_user && !(st.ssh_user == some "root") then
    "sudo -u " ++ pyOpt st.sudo_user ++ " " ++ kcmd
  else kcmd

/-! ### Polling constants (`stop_follower` lines 596-597,
`start_follower` lines 1186-1187) -/

/-- Stop phase: `max_wait_time = 120`. -/
def stop_max_wait_seconds : Nat := 120

/-- Stop phase: `wait_interval = 5`. -/
def stop_wait_interval : Nat := 5

/-- Start phase: `max_wait_time = 180`. -/
def start_max_wait_seconds : Nat := 180

/-- Start phase: `wait_interval = 10`. -/
def start_wait_interval : Nat := 10

/-! ### Workflow phases

Each phase returns `(result, updated context, events)`.  Management-plane
HTTP calls and the `ssh` connectivity/sudo probes (which use raw
`subprocess` invocations, not `_run_remote_command`) produce no `Event`s
and are resolved through the `Env` oracle fields. -/

/-- `discover_cluster_info` (lines 313-397): cluster/service/role lookup
and service-id read, all against the management API.  On success the
Ozone service is recorded and `service_id` is set to whatever the API
yielded (possibly nothing, which is only a warning). -/
def discover_cluster_info (env : Env) (c : Ctx) : Bool × Ctx × List Event :=
  if env.discoverOk then
    (true,
     { c with st :=
        { c.st with service_found := true, service_id := env.serviceIdFromCm } },
     [])
  else (false, c, [])

/-- `validate_ssh_connectivity` (lines 174-209): direct `ssh` probes of
the CM host and every OM host; not routed through `_run_remote_command`. -/
def validate_ssh_connectivity (env : Env) (c : Ctx) : Bool × Ctx × List Event :=
  (env.sshOk, c, [])

/-- `validate_sudo_access` (lines 230-277): skipped for a root SSH user;
otherwise a sudo probe on the CM host, an interactive request for a sudo
user when none is configured, and a re-test with that user.  All probes
are direct `ssh` invocations. -/
def validate_sudo_access (env : Env) (c : Ctx) : Bool × Ctx × List Event :=
  if c.st.ssh_user == some "root" then (true, c, [])
  else if env.sudoOk then (true, c, [])
  else if optTruthy c.st.sudo_user then (env.sudoRetestOk, c, [])
  else
    match env.sudoUserCollected with
    | none => (false, c, [])
    | some u =>
      if u == "" then (false, c, [])
      else (env.sudoRetestOk,
            { c with st := { c.st with sudo_user := some u } }, [])

/-- `check_snapshots_and_prompt` (lines 935-963): interactive operator
confirmation against the literal challenge `Continue`. -/
def check_snapshots_and_prompt (env : Env) (c : Ctx) : Bool × Ctx × List Event :=
  (env.promptOk, c, [])

/-- Continuation of `get_om_roles_from_cli` after a service id is in hand
(lines 428-485): run the roles command, parse leader and followers, and
accept only when the target is absent from a *non-empty* parsed follower
list fails -- an empty parse falls through to `return True`. -/
def rolesAfterSid (env : Env) (c : Ctx) (sid : String) (acc : List Event) :
    Bool × Ctx × List Event :=
  let rce := runCmd env c env.cmHost (.omRoles (some sid)) false
  let r := rce.1
  let c1 := rce.2.1
  if !(r.returncode == 0) then (false, c1, acc ++ [rce.2.2])
  else
    let out := r.stdout
    let st1 :=
      match parseLeader out with
      | some h => { c1.st with leader_host := some h }
      | none => c1.st
    let fm := parseFollowers out
    if fm.isEmpty then (true, { c1 with st := st1 }, acc ++ [rce.2.2])
    else if fm.contains c1.st.follower_host then
      let st2 :=
        match env.followerRoleNameFromCm with
        | some rn => { st1 with follower_role := some rn }
        | none => st1
      (true, { c1 with st := st2 }, acc ++ [rce.2.2])
    else (false, { c1 with st := st1 }, acc ++ [rce.2.2])

/-- `get_om_roles_from_cli` (lines 399-485): discover the service id via
`ozone getconf` when the management API did not provide one, then run and
parse the roles command. -/
def get_om_roles_from_cli (env : Env) (c : Ctx) : Bool × Ctx × List Event :=
  match c.st.service_id with
  | some sid => rolesAfterSid env c sid []
  | none =>
    let rce := runCmd env c env.cmHost .getconfServiceId false
    let r := rce.1
    let c1 := rce.2.1
    if r.returncode == 0 && !(pyStrip r.stdout == "") then
      let sid := pyStrip r.stdout
      rolesAfterSid env
        { c1 with st := { c1.st with service_id := some sid } } sid [rce.2.2]
    else (false, c1, [rce.2.2])

/-- `get_om_configuration` (lines 626-777): requires the follower role to
be identified, substitutes the role config group (preferring `-BASE`)
when the role-specific configuration is empty, resolves directories,
ports, protocol and the HTTP Kerberos flag, and fails only when the data
directory is unresolved (a missing Ratis directory is a warning). -/
def get_om_configuration (env : Env) (c : Ctx) : Bool × Ctx × List Event :=
  if !c.st.follower_role.isSome then (false, c, [])
  else if env.roleItems.isEmpty && !env.omGroupExists then (false, c, [])
  else
    let items := if env.roleItems.isEmpty then env.groupItems else env.roleItems
    let r := resolveOmConfig env.svcItems items
    let st' := { c.st with
      om_db_dir := r.db, ratis_dir := r.ratis,
      om_protocol := some r.protocol, om_port := some r.port,
      ozone_http_kerberos_enabled := r.httpKerberos }
    (r.db.isSome, { c with st := st' }, [])

/-- `check_security_configuration` (lines 1379-1454): read the
service-level security flag, require Kerberos credentials when either
security flag is set, validate the keytab on the CM host, and (outside
dry runs) test `kinit` there. -/
def check_security_configuration (env : Env) (c : Ctx) : Bool × Ctx × List Event :=
  if !c.st.service_found then (false, c, [])
  else
    let sec := securityEnabledLookup env.svcItems
    let c1 := { c with st := { c.st with ozone_security_enabled := sec } }
    if sec && !(optTruthy c1.st.keytab && optTruthy c1.st.principal) then
      (false, c1, [])
    else if c1.st.ozone_http_kerberos_enabled then
      if !(optTruthy c1.st.keytab && optTruthy c1.st.principal) then (false, c1, [])
      else
        let rce := runCmd env c1 env.cmHost (.testKeytab (pyOpt c1.st.keytab)) false
        let r := rce.1
        let c2 := rce.2.1
        if !(r.returncode == 0) || strContains r.stdout "NOT_FOUND" then
          (false, c2, [rce.2.2])
        else if !c1.st.dry_run then
          let kce := runCmd env c2 env.cmHost
            (.kinit (pyOpt c1.st.keytab) (pyOpt c1.st.principal)) false
          if !(kce.1.returncode == 0) then (false, kce.2.1, [rce.2.2, kce.2.2])
          else (true, kce.2.1, [rce.2.2, kce.2.2])
        else (true, c2, [rce.2.2])
    else (true, c1, [])

/-- The candidate-follower failover loop inside `verify_leader_health`
(lines 506-558): for each candidate host other than the current leader,
probe health, re-read the roles, extract the candidate's node id (three
line formats), issue a leadership transfer, and on success record the new
leader, wait 30 seconds and stop. -/
def failoverLoop (env : Env) (sid leaderH : String) :
    Ctx → List String → Ctx × List Event
  | c, [] => (c, [])
  | c, cand :: rest =>
    if !(cand == "") && !(cand == leaderH) then
      let t := runCmd env c cand (.getServiceRoles sid) false
      if t.1.returncode == 0 then
        let nr := runCmd env t.2.1 cand (.getServiceRoles sid) false
        if nr.1.returncode == 0 then
          match extractNodeId cand nr.1.stdout with
          | none =>
            let k := failoverLoop env sid leaderH nr.2.1 rest
            (k.1, [t.2.2, nr.2.2] ++ k.2)
          | some nid =>
            let tr := runCmd env nr.2.1 cand (.omTransfer sid nid) false
            if tr.1.returncode == 0 then
              ({ tr.2.1 with st := { tr.2.1.st with leader_host := some cand } },
               [t.2.2, nr.2.2, tr.2.2, Event.sleepSec 30])
            else
              let k := failoverLoop env sid leaderH tr.2.1 rest
              (k.1, [t.2.2, nr.2.2, tr.2.2] ++ k.2)
        else
          let k := failoverLoop env sid leaderH nr.2.1 rest
          (k.1, [t.2.2, nr.2.2] ++ k.2)
      else
        let k := failoverLoop env sid leaderH t.2.1 rest
        (k.1, [t.2.2] ++ k.2)
    else failoverLoop env sid leaderH c rest

/-- `verify_leader_health` (lines 487-561): requires a leader and a
service id, probes the leader with a `getserviceroles` read, attempts the
failover loop when the probe fails, and then *always* returns success. -/
def verify_leader_health (env : Env) (c : Ctx) : Bool × Ctx × List Event :=
  if !(optTruthy c.st.leader_host) then (false, c, [])
  else if !(optTruthy c.st.service_id) then (false, c, [])
  else
    let sid := pyOpt c.st.service_id
    let rce := runCmd env c (pyOpt c.st.leader_host) (.getServiceRoles sid) false
    if !(rce.1.returncode == 0) then
      let k := failoverLoop env sid (pyOpt c.st.leader_host) rce.2.1 env.candidateHosts
      (true, k.1, rce.2.2 :: k.2)
    else (true, rce.2.1, [rce.2.2])

/-- `list_last_ratis_log` (lines 877-933), for one host and stage
(`true` = "before").  Returns `none` in the first component when the
`split(' ', 1)[1]` on the find output would raise `IndexError` (no space
in the stripped output), which propagates as an exception. -/
def list_last_ratis_log (env : Env) (c : Ctx) (hostArg : Option String)
    (isBefore : Bool) : Option Bool × Ctx × List Event :=
  let host := if optTruthy hostArg then pyOpt hostArg else c.st.follower_host
  if !(optTruthy c.st.ratis_dir) then (some false, c, [])
  else
    let fce := runCmd env c host (.findLastLog (pyOpt c.st.ratis_dir)) false
    let r := fce.1
    let c1 := fce.2.1
    if !(r.returncode == 0) || pyStrip r.stdout == "" then
      (some false, c1, [fce.2.2])
    else
      let stripped := pyStrip r.stdout
      if !(strContains stripped " ") then (none, c1, [fce.2.2])
      else
        let lastLog :=
          String.mk (((stripped.data.dropWhile (fun ch => !(ch = ' '))).drop 1))
        let lce := runCmd env c1 host (.lsLa lastLog) false
        if lce.1.returncode == 0 then
          let st' :=
            if isBefore then
              if some host == c1.st.leader_host then
                { lce.2.1.st with leader_ratis_log_before := some lastLog }
              else
                { lce.2.1.st with follower_ratis_log_before := some lastLog }
            else lce.2.1.st
          (some true, { lce.2.1 with st := st' }, [fce.2.2, lce.2.2])
        else (some false, lce.2.1, [fce.2.2, lce.2.2])

/-- The Ratis-log listing block of `run_bootstrap` (steps 2.1 and 7.1,
lines 1495-1510 and 1546-1562): list once when leader and follower
coincide, else leader then follower; listing failures are warnings only,
but an exception inside `list_last_ratis_log` aborts the run. -/
def ratis_listings (env : Env) (c : Ctx) (isBefore : Bool) :
    Bool × Ctx × List Event :=
  if c.st.leader_host == some c.st.follower_host then
    match list_last_ratis_log env c c.st.leader_host isBefore with
    | (none, c', ev) => (false, c', ev)
    | (some _, c', ev) => (true, c', ev)
  else
    match list_last_ratis_log env c c.st.leader_host isBefore with
    | (none, c1, ev1) => (false, c1, ev1)
    | (some _, c1, ev1) =>
      match list_last_ratis_log env c1 (some c1.st.follower_host) isBefore with
      | (none, c2, ev2) => (false, c2, ev1 ++ ev2)
      | (some _, c2, ev2) => (true, c2, ev1 ++ ev2)

/-- The polling loop of `stop_follower` (lines 600-620): up to
`120 / 5 = 24` `pgrep` checks; the process disappearing records
`om_role_was_stopped = True` and succeeds; the timeout records
`om_role_was_stopped = False` and *fails*. -/
def stopPoll (env : Env) : Ctx → List Event → Nat → Bool × Ctx × List Event
  | c, acc, 0 =>
    (false, { c with st := { c.st with om_role_was_stopped := false } }, acc)
  | c, acc, n + 1 =>
    let rce := runCmd env c c.st.follower_host .pgrepOm false
    if !(rce.1.returncode == 0) then
      (true,
       { rce.2.1 with st := { rce.2.1.st with om_role_was_stopped := true } },
       acc ++ [rce.2.2])
    else stopPoll env rce.2.1 (acc ++ [rce.2.2, Event.sleepSec 5]) n

/-- `stop_follower` (lines 563-624): resolve the follower's role name via
the management API, log-and-return in dry runs, otherwise issue the CM
stop command and poll for process disappearance. -/
def stop_follower (env : Env) (c : Ctx) : Bool × Ctx × List Event :=
  match env.followerRoleNameFromCm with
  | none => (false, c, [])
  | some rn =>
    let c0 := { c with st := { c.st with follower_role := some rn } }
    if c0.st.dry_run then (true, c0, [Event.dryLogRole "stop" rn])
    else
      stopPoll env c0 [Event.roleCommand "stop" rn]
        (stop_max_wait_seconds / stop_wait_interval)

/-- `test_checkpoint_endpoint` (lines 965-1007): requires leader,
protocol and port; requires credentials when HTTP Kerberos is on; sends a
HEAD request via curl on the follower host (also during dry runs). -/
def test_checkpoint_endpoint (env : Env) (c : Ctx) : Bool × Ctx × List Event :=
  if !(optTruthy c.st.leader_host && optTruthy c.st.om_protocol
        && optTruthy c.st.om_port) then (false, c, [])
  else if c.st.ozone_http_kerberos_enabled
      && !(optTruthy c.st.keytab && optTruthy c.st.principal) then (false, c, [])
  else
    let rce := runCmd env c c.st.follower_host
      (.curlHead c.st.ozone_http_kerberos_enabled (pyOpt c.st.om_protocol)
        (pyOpt c.st.leader_host) (pyOpt c.st.om_port)) false
    if !(rce.1.returncode == 0) then (false, rce.2.1, [rce.2.2])
    else (true, rce.2.1, [rce.2.2])

/-- `download_checkpoint` (lines 779-875): create the remote temp
directory (executed even in dry runs), build the curl command, stop there
in dry runs, otherwise download and run the validity gate: `ls`, `file`,
`head|hexdump`, an error-text `grep` whose hits are *only warned about*,
and the tar list test whose failure is the sole rejection. -/
def download_checkpoint (env : Env) (c : Ctx) : Bool × Ctx × List Event :=
  if !(optTruthy c.st.leader_host) then (false, c, [])
  else
    let protocol := pyOpt c.st.om_protocol
    let port := pyOpt c.st.om_port
    let mce := runCmd env c c.st.follower_host (.mktempDir c.st.epoch_time) false
    if !(mce.1.returncode == 0) then (false, mce.2.1, [mce.2.2])
    else
      let tmp := pyStrip mce.1.stdout
      let c2 := { mce.2.1 with st := { mce.2.1.st with temp_dir := some tmp } }
      let file := tmp ++ "/om-db-checkpoint.tar"
      if c2.st.ozone_http_kerberos_enabled
          && !(optTruthy c2.st.keytab && optTruthy c2.st.principal) then
        (false, c2, [mce.2.2])
      else
        let dl := RCmd.curlDownload c2.st.ozone_http_kerberos_enabled protocol
          (pyOpt c2.st.leader_host) port file
        if c2.st.dry_run then (true, c2, [mce.2.2, Event.dryLog dl])
        else
          let dce := runCmd env c2 c2.st.follower_host dl false
          if !(dce.1.returncode == 0) then (false, dce.2.1, [mce.2.2, dce.2.2])
          else
            let lce := runCmd env dce.2.1 c2.st.follower_host (.lsLa file) false
            if !(lce.1.returncode == 0) then
              (false, lce.2.1, [mce.2.2, dce.2.2, lce.2.2])
            else
              let fce := runCmd env lce.2.1 c2.st.follower_host (.fileCmd file) false
              let hce := runCmd env fce.2.1 c2.st.follower_host (.headHexdump file) false
              let gce := runCmd env hce.2.1 c2.st.follower_host (.grepErrors file) false
              let tce := runCmd env gce.2.1 c2.st.follower_host (.tarTest file) false
              if !(tce.1.returncode == 0) then
                (false, tce.2.1,
                 [mce.2.2, dce.2.2, lce.2.2, fce.2.2, hce.2.2, gce.2.2, tce.2.2])
              else
                (true, tce.2.1,
                 [mce.2.2, dce.2.2, lce.2.2, fce.2.2, hce.2.2, gce.2.2, tce.2.2])

/-- `extract_checkpoint` (lines 1009-1044): requires the DB and temp
directories, creates the extraction directory (executed even in dry
runs), then extracts the archive (dry runs log the tar command only). -/
def extract_checkpoint (env : Env) (c : Ctx) : Bool × Ctx × List Event :=
  if !(optTruthy c.st.om_db_dir && optTruthy c.st.temp_dir) then (false, c, [])
  else
    let file := pyOpt c.st.temp_dir ++ "/om-db-checkpoint.tar"
    let exd := pyOpt c.st.om_db_dir ++ ".tmp_" ++ toString c.st.epoch_time
    let mce := runCmd env c c.st.follower_host (.mkdirP exd) false
    if !(mce.1.returncode == 0) then (false, mce.2.1, [mce.2.2])
    else if c.st.dry_run then
      (true, mce.2.1, [mce.2.2, Event.dryLog (.tarExtract file exd)])
    else
      let tce := runCmd env mce.2.1 c.st.follower_host (.tarExtract file exd) false
      if !(tce.1.returncode == 0) then (false, tce.2.1, [mce.2.2, tce.2.2])
      else (true, tce.2.1, [mce.2.2, tce.2.2])

/-- `backup_and_replace_database` (lines 1046-1109): create the backup
directory (executed even in dry runs), then copy the live database aside,
rename it out of the way, rename the extracted checkpoint into place and
fix ownership -- each guarded by `dry_run` (logged, not executed), with a
chown failure only a warning. -/
def backup_and_replace_database (env : Env) (c : Ctx) : Bool × Ctx × List Event :=
  if !(optTruthy c.st.om_db_dir) then (false, c, [])
  else
    let mce := runCmd env c c.st.follower_host (.mkdirP c.st.backup_dir) false
    if !(mce.1.returncode == 0) then (false, mce.2.1, [mce.2.2])
    else
      let current_db := pyOpt c.st.om_db_dir ++ "/om.db"
      let backup_db := c.st.backup_dir ++ "/om.db.backup." ++ toString c.st.epoch_time
      let cpCmd := RCmd.cpR current_db backup_db
      let mv1 := RCmd.mvCmd current_db (current_db ++ ".backup." ++ toString c.st.epoch_time)
      let mv2 := RCmd.mvCmd (pyOpt c.st.om_db_dir ++ ".tmp_" ++ toString c.st.epoch_time)
        current_db
      let chownCmd := RCmd.chownHdfs current_db
      if c.st.dry_run then
        (true, mce.2.1,
         [mce.2.2, Event.dryLog cpCmd, Event.dryLog mv1, Event.dryLog mv2,
          Event.dryLog chownCmd])
      else
        let cce := runCmd env mce.2.1 c.st.follower_host cpCmd false
        if !(cce.1.returncode == 0) then (false, cce.2.1, [mce.2.2, cce.2.2])
        else
          let m1e := runCmd env cce.2.1 c.st.follower_host mv1 false
          if !(m1e.1.returncode == 0) then
            (false, m1e.2.1, [mce.2.2, cce.2.2, m1e.2.2])
          else
            let m2e := runCmd env m1e.2.1 c.st.follower_host mv2 false
            if !(m2e.1.returncode == 0) then
              (false, m2e.2.1, [mce.2.2, cce.2.2, m1e.2.2, m2e.2.2])
            else
              let che := runCmd env m2e.2.1 c.st.follower_host chownCmd false
              (true, che.2.1, [mce.2.2, cce.2.2, m1e.2.2, m2e.2.2, che.2.2])

/-- `backup_ratis_logs` (lines 1111-1159): skipped (successfully) when
the Ratis directory is unknown; find the `current` directory, create the
backup directories (executed even in dry runs), then copy and move the
log files -- guarded by `dry_run`, failures only warnings. -/
def backup_ratis_logs (env : Env) (c : Ctx) : Bool × Ctx × List Event :=
  if !(optTruthy c.st.ratis_dir) then (true, c, [])
  else
    let fce := runCmd env c c.st.follower_host (.findCurrent (pyOpt c.st.ratis_dir)) false
    if !(fce.1.returncode == 0) || pyStrip fce.1.stdout == "" then
      (true, fce.2.1, [fce.2.2])
    else
      let current_dir := pyStrip fce.1.stdout
      let ratisBk := c.st.backup_dir ++ "/ratisLogs_" ++ toString c.st.epoch_time
      let mce := runCmd env fce.2.1 c.st.follower_host
        (.mkdirP (ratisBk ++ " " ++ ratisBk ++ "/original")) false
      if !(mce.1.returncode == 0) then (false, mce.2.1, [fce.2.2, mce.2.2])
      else
        let cpCmd := RCmd.cpLogsGlob current_dir ratisBk
        let mvCmd := RCmd.mvLogsGlob current_dir ratisBk
        if c.st.dry_run then
          (true, mce.2.1,
           [fce.2.2, mce.2.2, Event.dryLog cpCmd, Event.dryLog mvCmd])
        else
          let cce := runCmd env mce.2.1 c.st.follower_host cpCmd false
          let mve := runCmd env cce.2.1 c.st.follower_host mvCmd false
          (true, mve.2.1, [fce.2.2, mce.2.2, cce.2.2, mve.2.2])

/-- The polling loop of `start_follower` (lines 1190-1208): up to
`180 / 10 = 18` `pgrep` checks; the process appearing resets
`om_role_was_stopped` and succeeds; the timeout fails. -/
def startPoll (env : Env) : Ctx → List Event → Nat → Bool × Ctx × List Event
  | c, acc, 0 => (false, c, acc)
  | c, acc, n + 1 =>
    let rce := runCmd env c c.st.follower_host .pgrepOm false
    if rce.1.returncode == 0 then
      (true,
       { rce.2.1 with st := { rce.2.1.st with om_role_was_stopped := false } },
       acc ++ [rce.2.2])
    else startPoll env rce.2.1 (acc ++ [rce.2.2, Event.sleepSec 10]) n

/-- `start_follower` (lines 1161-1212): requires the follower role,
log-and-return in dry runs, otherwise issue the CM start command and poll
for process appearance; the timeout is a hard failure. -/
def start_follower (env : Env) (c : Ctx) : Bool × Ctx × List Event :=
  match c.st.follower_role with
  | none => (false, c, [])
  | some rn =>
    if c.st.dry_run then (true, c, [Event.dryLogRole "start" rn])
    else
      startPoll env c [Event.roleCommand "start" rn]
        (start_max_wait_seconds / start_wait_interval)

/-- `_get_om_roles_from_cli` (lines 1345-1377): re-run the roles command
(with `-id=` only when a service id is known) and refresh the leader from
its output; the follower list is not re-examined here. -/
def refresh_om_roles (env : Env) (c : Ctx) : Bool × Ctx × List Event :=
  let cmd := RCmd.omRoles (if optTruthy c.st.service_id then c.st.service_id else none)
  let rce := runCmd env c env.cmHost cmd false
  if !(rce.1.returncode == 0) then (false, rce.2.1, [rce.2.2])
  else
    let st' :=
      match parseLeader rce.1.stdout with
      | some h => { rce.2.1.st with leader_host := some h }
      | none => rce.2.1.st
    (true, { rce.2.1 with st := st' }, [rce.2.2])

/-- `verify_om_status` (lines 1214-1225): wait 30 seconds for the OM to
rejoin, then refresh the roles. -/
def verify_om_status (env : Env) (c : Ctx) : Bool × Ctx × List Event :=
  let k := refresh_om_roles env c
  (k.1, k.2.1, Event.sleepSec 30 :: k.2.2)

/-- Step 7.2 of `run_bootstrap` (lines 1564-1570): if the run's own stop
actually stopped the role, attempt a restart; a restart failure is only a
warning. -/
def restart_if_stopped (env : Env) (c : Ctx) : Bool × Ctx × List Event :=
  if c.st.om_role_was_stopped then
    let k := start_follower env c
    (true, k.2.1, k.2.2)
  else (true, c, [])

/-- `test_leadership_transfer` (lines 1227-1291): read the service roles
on the follower, extract its node id, issue the transfer, wait 30
seconds, and refresh the roles (for logging only). -/
def test_leadership_transfer (env : Env) (c : Ctx) : Bool × Ctx × List Event :=
  let rce := runCmd env c c.st.follower_host
    (.getServiceRoles (pyOpt c.st.service_id)) false
  if !(rce.1.returncode == 0) then (false, rce.2.1, [rce.2.2])
  else
    match extractNodeId c.st.follower_host rce.1.stdout with
    | none => (false, rce.2.1, [rce.2.2])
    | some nid =>
      let tre := runCmd env rce.2.1 c.st.follower_host
        (.omTransfer (pyOpt c.st.service_id) nid) false
      if tre.1.returncode == 0 then
        let k := refresh_om_roles env tre.2.1
        (true, k.2.1, [rce.2.2, tre.2.2, Event.sleepSec 30] ++ k.2.2)
      else (false, tre.2.1, [rce.2.2, tre.2.2])

/-- Step 8.0 of `run_bootstrap` (lines 1572-1575): the leadership
transfer test runs only when enabled, and its failure aborts. -/
def leadership_test_phase (env : Env) (c : Ctx) : Bool × Ctx × List Event :=
  if c.st.enable_leadership_transfer_test then test_leadership_transfer env c
  else (true, c, [])

/-- `cleanup` (lines 1293-1303): remove the remote temporary directory
when one was allocated; failures are warnings, the state is untouched. -/
def cleanup (env : Env) (c : Ctx) : Ctx × List Event :=
  if optTruthy c.st.temp_dir then
    let rce := runCmd env c c.st.follower_host (.rmRf (pyOpt c.st.temp_dir)) false
    (rce.2.1, [rce.2.2])
  else (c, [])

/-! ### The orchestrator (`run_bootstrap`, lines 1456-1586) -/

/-- Run a list of phases in order, aborting at the first failure
(`if not phase(): return False`) and concatenating their events. -/
def runPhases : List (Ctx → Bool × Ctx × List Event) → Ctx → Bool × Ctx × List Event
  | [], c => (true, c, [])
  | f :: fs, c =>
    match f c with
    | (false, c', ev) => (false, c', ev)
    | (true, c', ev) =>
      let k := runPhases fs c'
      (k.1, k.2.1, ev ++ k.2.2)

/-- The phase sequence of `run_bootstrap` in source order (steps 1.0
through 8.0). -/
def bootstrap_phases (env : Env) : List (Ctx → Bool × Ctx × List Event) :=
  [discover_cluster_info env,
   validate_ssh_connectivity env,
   validate_sudo_access env,
   check_snapshots_and_prompt env,
   get_om_roles_from_cli env,
   get_om_configuration env,
   check_security_configuration env,
   verify_leader_health env,
   (fun c => ratis_listings env c true),
   stop_follower env,
   test_checkpoint_endpoint env,
   download_checkpoint env,
   extract_checkpoint env,
   backup_and_replace_database env,
   backup_ratis_logs env,
   start_follower env,
   verify_om_status env,
   (fun c => ratis_listings env c false),
   restart_if_stopped env,
   leadership_test_phase env]

/-- `run_bootstrap` (lines 1456-1586): the phases in order with
fail-fast aborts, followed unconditionally (`finally`) by `cleanup`. -/
def run_bootstrap (env : Env) (c : Ctx) : Bool × Ctx × List Event :=
  let k := runPhases (bootstrap_phases env) c
  let cl := cleanup env k.2.1
  (k.1, cl.1, k.2.2 ++ cl.2)

/-- Process exit-code mapping in `main` (lines 1709-1714). -/
def exit_code (ok : Bool) : Nat := if ok then 0 else 1

/-! ### Event predicates used by the claims -/

/-- Master per-event invariant, parameterised by the dry-run flag: every
remote call is issued with `use_sudo = False`; during a dry run no
dry-guarded command is executed and no management-plane role command is
issued; every sleep is one of the three constants 5, 10, 30. -/
def eventOkFor (dry : Bool) : Event → Bool
  | .remote _ cmd s => !s && (!dry || !cmd.dryGuarded)
  | .roleCommand _ _ => !dry
  | .sleepSec n => n == 5 || n == 10 || n == 30
  | _ => true

/-- During a dry run: no dry-guarded remote command executed, no role
command issued. -/
def dryEventSafe : Event → Bool
  | .remote _ cmd _ => !cmd.dryGuarded
  | .roleCommand _ _ => false
  | _ => true

/-- The remote call was issued without sudo elevation. -/
def sudoFreeEvent : Event → Bool
  | .remote _ _ s => !s
  | _ => true

/-- The event performs no remote state mutation and is not a role
command. -/
def nonDestructiveEvent : Event → Bool
  | .remote _ cmd _ => !cmd.mutatesRemoteState
  | .roleCommand _ _ => false
  | _ => true

/-- The event touches neither the live database or log directories nor
the extraction directory: no copy, rename, chown, tar extraction,
directory creation or log move. -/
def noInstallEvent : Event → Bool
  | .remote _ cmd _ =>
    match cmd with
    | .cpR _ _ => false
    | .mvCmd _ _ => false
    | .chownHdfs _ => false
    | .tarExtract _ _ => false
    | .mkdirP _ => false
    | .cpLogsGlob _ _ => false
    | .mvLogsGlob _ _ => false
    | _ => true
  | _ => true

/-- The event is not a management-plane `start` role command. -/
def noStartCommandEvent : Event → Bool
  | .roleCommand a _ => !(a == "start")
  | _ => true

/-- The event is an executed remote command that mutates remote state. -/
def isRemoteMutatingEvent : Event → Bool
  | .remote _ cmd _ => cmd.mutatesRemoteState
  | _ => false


/-! ### Master invariant: every phase obeys `eventOkFor` and preserves
the dry-run flag -/

/-- A phase whose events all satisfy the master invariant and which
preserves the `dry_run` flag. -/
def GoodPhase (f : Ctx → Bool × Ctx × List Event) : Prop :=
  ∀ c, ((f c).2.2.all (eventOkFor c.st.dry_run) = true) ∧
    ((f c).2.1.st.dry_run = c.st.dry_run)

theorem discover_good (env : Env) : GoodPhase (discover_cluster_info env) := by
  intro c
  unfold discover_cluster_info
  repeat' (first | split | dsimp only)
  all_goals simp_all [List.all_append, eventOkFor, RCmd.dryGuarded]

theorem ssh_good (env : Env) : GoodPhase (validate_ssh_connectivity env) := by
  intro c
  unfold validate_ssh_connectivity
  simp

theorem sudo_good (env : Env) : GoodPhase (validate_sudo_access env) := by
  intro c
  unfold validate_sudo_access
  repeat' (first | split | dsimp only)
  all_goals simp_all [List.all_append, eventOkFor, RCmd.dryGuarded]

theorem prompt_good (env : Env) : GoodPhase (check_snapshots_and_prompt env) := by
  intro c
  unfold check_snapshots_and_prompt
  simp

theorem rolesAfterSid_good (env : Env) (sid : String) (c : Ctx) (acc : List Event)
    (hacc : acc.all (eventOkFor c.st.dry_run) = true) :
    ((rolesAfterSid env c sid acc).2.2.all (eventOkFor c.st.dry_run) = true) ∧
    ((rolesAfterSid env c sid acc).2.1.st.dry_run = c.st.dry_run) := by
  unfold rolesAfterSid runCmd
  repeat' (first | split | dsimp only)
  all_goals simp_all [List.all_append, eventOkFor, RCmd.dryGuarded]

theorem roles_good (env : Env) : GoodPhase (get_om_roles_from_cli env) := by
  intro c
  unfold get_om_roles_from_cli runCmd
  split
  · exact rolesAfterSid_good env _ c [] (by simp)
  · dsimp only
    split
    · refine rolesAfterSid_good env _ _ _ ?_
      simp [eventOkFor, RCmd.dryGuarded]
    · simp [eventOkFor, RCmd.dryGuarded]

theorem config_good (env : Env) : GoodPhase (get_om_configuration env) := by
  intro c
  unfold get_om_configuration
  repeat' (first | split | dsimp only)
  all_goals simp_all [List.all_append, eventOkFor, RCmd.dryGuarded]

theorem security_good (env : Env) : GoodPhase (check_security_configuration env) := by
  intro c
  unfold check_security_configuration runCmd
  repeat' (first | split | dsimp only)
  all_goals simp_all [List.all_append, eventOkFor, RCmd.dryGuarded]

theorem failoverLoop_good (env : Env) (sid leaderH : String) :
    ∀ cands c, ((failoverLoop env sid leaderH c cands).2.all
        (eventOkFor c.st.dry_run) = true) ∧
      ((failoverLoop env sid leaderH c cands).1.st.dry_run = c.st.dry_run) := by
  intro cands
  induction cands with
  | nil => intro c; simp [failoverLoop]
  | cons cand rest ih =>
    intro c
    have ih0 := ih c
    have ih1 := ih { st := c.st, calls := c.calls + 1 }
    have ih2 := ih { st := c.st, calls := c.calls + 1 + 1 }
    have ih3 := ih { st := c.st, calls := c.calls + 1 + 1 + 1 }
    clear ih
    unfold failoverLoop runCmd
    repeat' (first | split | dsimp only)
    all_goals simp_all [List.all_append, eventOkFor, RCmd.dryGuarded]

theorem leader_health_good (env : Env) : GoodPhase (verify_leader_health env) := by
  intro c
  unfold verify_leader_health runCmd
  repeat' (first | split | dsimp only)
  all_goals
    simp_all [List.all_append, eventOkFor, RCmd.dryGuarded,
      failoverLoop_good env (pyOpt c.st.service_id) (pyOpt c.st.leader_host)
        env.candidateHosts { c with calls := c.calls + 1 }]

theorem list_last_ratis_good (env : Env) (c : Ctx) (hostArg : Option String)
    (isBefore : Bool) :
    ((list_last_ratis_log env c hostArg isBefore).2.2.all
        (eventOkFor c.st.dry_run) = true) ∧
    ((list_last_ratis_log env c hostArg isBefore).2.1.st.dry_run = c.st.dry_run) := by
  unfold list_last_ratis_log runCmd
  repeat' (first | split | dsimp only)
  all_goals simp_all [List.all_append, eventOkFor, RCmd.dryGuarded]

theorem ratis_listings_good (env : Env) (isBefore : Bool) :
    GoodPhase (fun c => ratis_listings env c isBefore) := by
  intro c
  dsimp only
  unfold ratis_listings
  have h1 := list_last_ratis_good env c c.st.leader_host isBefore
  split
  · split <;> simp_all
  · split
    · simp_all
    next c1 ev1 heq =>
      have h2 := list_last_ratis_good env c1 (some c1.st.follower_host) isBefore
      rw [heq] at h1
      split <;> simp_all [List.all_append]

theorem stopPoll_good (env : Env) :
    ∀ n c acc, acc.all (eventOkFor c.st.dry_run) = true →
      ((stopPoll env c acc n).2.2.all (eventOkFor c.st.dry_run) = true) ∧
      ((stopPoll env c acc n).2.1.st.dry_run = c.st.dry_run) := by
  intro n
  induction n with
  | zero => intro c acc hacc; simp_all [stopPoll]
  | succ k ih =>
    intro c acc hacc
    unfold stopPoll runCmd
    dsimp only
    split
    · simp_all [List.all_append, eventOkFor, RCmd.dryGuarded]
    · have hmore : (acc ++ [Event.remote c.st.follower_host .pgrepOm false,
          Event.sleepSec 5]).all (eventOkFor c.st.dry_run) = true := by
        rw [List.all_append, hacc]
        simp [eventOkFor, RCmd.dryGuarded]
      exact ih { c with calls := c.calls + 1 } _ hmore

theorem stop_good (env : Env) : GoodPhase (stop_follower env) := by
  intro c
  unfold stop_follower
  try dsimp only
  split
  · simp
  next rn heq =>
    split
    · simp_all [eventOkFor]
    next hdry =>
      have := stopPoll_good env (stop_max_wait_seconds / stop_wait_interval)
        { c with st := { c.st with follower_role := some rn } }
        [Event.roleCommand "stop" rn]
        (by simp_all [eventOkFor])
      simp_all

theorem endpoint_good (env : Env) : GoodPhase (test_checkpoint_endpoint env) := by
  intro c
  unfold test_checkpoint_endpoint runCmd
  repeat' (first | split | dsimp only)
  all_goals simp_all [List.all_append, eventOkFor, RCmd.dryGuarded]

theorem download_good (env : Env) : GoodPhase (download_checkpoint env) := by
  intro c
  unfold download_checkpoint runCmd
  repeat' (first | split | dsimp only)
  all_goals simp_all [List.all_append, eventOkFor, RCmd.dryGuarded]

theorem extract_good (env : Env) : GoodPhase (extract_checkpoint env) := by
  intro c
  unfold extract_checkpoint runCmd
  repeat' (first | split | dsimp only)
  all_goals simp_all [List.all_append, eventOkFor, RCmd.dryGuarded]

theorem backup_db_good (env : Env) : GoodPhase (backup_and_replace_database env) := by
  intro c
  unfold backup_and_replace_database runCmd
  repeat' (first | split | dsimp only)
  all_goals simp_all [List.all_append, eventOkFor, RCmd.dryGuarded]

theorem backup_ratis_good (env : Env) : GoodPhase (backup_ratis_logs env) := by
  intro c
  unfold backup_ratis_logs runCmd
  repeat' (first | split | dsimp only)
  all_goals simp_all [List.all_append, eventOkFor, RCmd.dryGuarded]

theorem startPoll_good (env : Env) :
    ∀ n c acc, acc.all (eventOkFor c.st.dry_run) = true →
      ((startPoll env c acc n).2.2.all (eventOkFor c.st.dry_run) = true) ∧
      ((startPoll env c acc n).2.1.st.dry_run = c.st.dry_run) := by
  intro n
  induction n with
  | zero => intro c acc hacc; simp_all [startPoll]
  | succ k ih =>
    intro c acc hacc
    unfold startPoll runCmd
    dsimp only
    split
    · simp_all [List.all_append, eventOkFor, RCmd.dryGuarded]
    · have hmore : (acc ++ [Event.remote c.st.follower_host .pgrepOm false,
          Event.sleepSec 10]).all (eventOkFor c.st.dry_run) = true := by
        rw [List.all_append, hacc]
        simp [eventOkFor, RCmd.dryGuarded]
      exact ih { c with calls := c.calls + 1 } _ hmore

theorem start_good (env : Env) : GoodPhase (start_follower env) := by
  intro c
  unfold start_follower
  try dsimp only
  split
  · simp
  next rn heq =>
    split
    · simp_all [eventOkFor]
    next hdry =>
      have := startPoll_good env (start_max_wait_seconds / start_wait_interval)
        c [Event.roleCommand "start" rn] (by simp_all [eventOkFor])
      simp_all

theorem refresh_good (env : Env) : GoodPhase (refresh_om_roles env) := by
  intro c
  unfold refresh_om_roles runCmd
  repeat' (first | split | dsimp only)
  all_goals simp_all [List.all_append, eventOkFor, RCmd.dryGuarded]

theorem verify_status_good (env : Env) : GoodPhase (verify_om_status env) := by
  intro c
  unfold verify_om_status
  have := refresh_good env c
  simp_all [eventOkFor]

theorem restart_good (env : Env) : GoodPhase (restart_if_stopped env) := by
  intro c
  unfold restart_if_stopped
  have := start_good env c
  split <;> simp_all

theorem transfer_test_good (env : Env) : GoodPhase (test_leadership_transfer env) := by
  intro c
  unfold test_leadership_transfer runCmd
  repeat' (first | split | dsimp only)
  all_goals
    simp_all [List.all_append, eventOkFor, RCmd.dryGuarded, refresh_good env _]

theorem leadership_phase_good (env : Env) : GoodPhase (leadership_test_phase env) := by
  intro c
  unfold leadership_test_phase
  have := transfer_test_good env c
  split <;> simp_all

theorem cleanup_good (env : Env) (c : Ctx) :
    ((cleanup env c).2.all (eventOkFor c.st.dry_run) = true) ∧
    ((cleanup env c).1.st.dry_run = c.st.dry_run) := by
  unfold cleanup runCmd
  repeat' (first | split | dsimp only)
  all_goals simp_all [List.all_append, eventOkFor, RCmd.dryGuarded]

theorem runPhases_good :
    ∀ (L : List (Ctx → Bool × Ctx × List Event)), (∀ f ∈ L, GoodPhase f) →
      ∀ c, ((runPhases L c).2.2.all (eventOkFor c.st.dry_run) = true) ∧
        ((runPhases L c).2.1.st.dry_run = c.st.dry_run) := by
  intro L
  induction L with
  | nil => intro _ c; simp [runPhases]
  | cons f fs ih =>
    intro hall c
    have hf := hall f (by simp) c
    have hfs := ih (fun g hg => hall g (by simp [hg])) (f c).2.1
    unfold runPhases
    split
    next c' ev heq => rw [heq] at hf; simp_all
    next c' ev heq =>
      rw [heq] at hf hfs
      simp only at hf hfs
      simp [List.all_append, hf.1, hf.2 ▸ hfs.1, hf.2 ▸ hfs.2, hf.2]

theorem bootstrap_phases_good (env : Env) :
    ∀ f ∈ bootstrap_phases env, GoodPhase f := by
  intro f hf
  simp only [bootstrap_phases, List.mem_cons, List.not_mem_nil, or_false] at hf
  rcases hf with h | h | h | h | h | h | h | h | h | h | h | h | h | h | h | h | h | h | h | h <;>
    subst h
  · exact discover_good env
  · exact ssh_good env
  · exact sudo_good env
  · exact prompt_good env
  · exact roles_good env
  · exact config_good env
  · exact security_good env
  · exact leader_health_good env
  · exact ratis_listings_good env true
  · exact stop_good env
  · exact endpoint_good env
  · exact download_good env
  · exact extract_good env
  · exact backup_db_good env
  · exact backup_ratis_good env
  · exact start_good env
  · exact verify_status_good env
  · exact ratis_listings_good env false
  · exact restart_good env
  · exact leadership_phase_good env

/-- Master invariant of the whole run: every event of `run_bootstrap`
satisfies `eventOkFor` for the initial dry-run flag. -/
theorem run_bootstrap_master (env : Env) (c : Ctx) :
    (run_bootstrap env c).2.2.all (eventOkFor c.st.dry_run) = true := by
  unfold run_bootstrap
  have h := runPhases_good (bootstrap_phases env) (bootstrap_phases_good env) c
  have hcl := cleanup_good env (runPhases (bootstrap_phases env) c).2.1
  simp only [List.all_append]
  rw [h.2] at hcl
  simp [h.1, hcl.1]

/-! ### Generic helper lemmas -/

theorem event_all_mono {p q : Event → Bool} (himp : ∀ e, p e = true → q e = true) :
    ∀ l : List Event, l.all p = true → l.all q = true := by
  intro l h
  rw [List.all_eq_true] at h ⊢
  exact fun e he => himp e (h e he)

theorem remoteCount_append (l l' : List Event) :
    remoteCount (l ++ l') = remoteCount l + remoteCount l' := by
  simp [remoteCount, List.filter_append]

theorem sleepSum_append (l l' : List Event) :
    sleepSum (l ++ l') = sleepSum l + sleepSum l' := by
  simp [sleepSum]

/-- Fail-fast composition: when every phase of a prefix preserves an
invariant and emits only events satisfying `P`, and the next phase fails
under the invariant (also preserving it and emitting only `P` events),
the whole pipeline fails, preserves the invariant, and emits only `P`
events -- whatever comes after the failing phase. -/
theorem runPhases_abort_prefix (Inv : Ctx → Prop) (P : Event → Bool) :
    ∀ (pre : List (Ctx → Bool × Ctx × List Event))
      (f0 : Ctx → Bool × Ctx × List Event)
      (rest : List (Ctx → Bool × Ctx × List Event)),
    (∀ f ∈ pre, ∀ c, Inv c → Inv (f c).2.1 ∧ (f c).2.2.all P = true) →
    (∀ c, Inv c → (f0 c).1 = false ∧ Inv (f0 c).2.1 ∧ (f0 c).2.2.all P = true) →
    ∀ c, Inv c →
      (runPhases (pre ++ f0 :: rest) c).1 = false ∧
      Inv (runPhases (pre ++ f0 :: rest) c).2.1 ∧
      (runPhases (pre ++ f0 :: rest) c).2.2.all P = true := by
  intro pre
  induction pre with
  | nil =>
    intro f0 rest _ hf0 c hc
    have h := hf0 c hc
    simp only [List.nil_append]
    unfold runPhases
    rcases hfc : f0 c with ⟨ok, c', ev⟩
    rw [hfc] at h
    simp only at h
    rcases h with ⟨h1, h2, h3⟩
    subst h1
    simpa using And.intro h2 h3
  | cons g gs ih =>
    intro f0 rest hpre hf0 c hc
    have hg := hpre g (by simp) c hc
    simp only [List.cons_append]
    unfold runPhases
    rcases hgc : g c with ⟨ok, c', ev⟩
    rw [hgc] at hg
    simp only at hg
    cases ok
    · simpa using And.intro hg.1 hg.2
    · have hrec := ih f0 rest (fun f hf => hpre f (by simp [hf])) hf0 c' hg.1
      simpa [List.all_append, hg.2] using And.intro hrec.1 (And.intro hrec.2.1 hrec.2.2)

/-! ### Per-phase vocabulary lemmas: no phase before the install steps
ever emits an install command (`cp`, `mv`, `chown`, `tar -x`, `mkdir`,
log-glob copies/moves) -/

theorem discover_noInstall (env : Env) (c : Ctx) :
    (discover_cluster_info env c).2.2.all noInstallEvent = true := by
  unfold discover_cluster_info
  repeat' (first | split | dsimp only)
  all_goals simp_all [noInstallEvent]

theorem ssh_noInstall (env : Env) (c : Ctx) :
    (validate_ssh_connectivity env c).2.2.all noInstallEvent = true := by
  unfold validate_ssh_connectivity
  simp

theorem sudo_noInstall (env : Env) (c : Ctx) :
    (validate_sudo_access env c).2.2.all noInstallEvent = true := by
  unfold validate_sudo_access
  repeat' (first | split | dsimp only)
  all_goals simp_all [noInstallEvent]

theorem prompt_noInstall (env : Env) (c : Ctx) :
    (check_snapshots_and_prompt env c).2.2.all noInstallEvent = true := by
  unfold check_snapshots_and_prompt
  simp

theorem rolesAfterSid_noInstall (env : Env) (sid : String) (c : Ctx)
    (acc : List Event) (hacc : acc.all noInstallEvent = true) :
    ((rolesAfterSid env c sid acc).2.2.all noInstallEvent = true) := by
  unfold rolesAfterSid runCmd
  repeat' (first | split | dsimp only)
  all_goals simp_all [List.all_append, noInstallEvent]

theorem roles_noInstall (env : Env) (c : Ctx) :
    (get_om_roles_from_cli env c).2.2.all noInstallEvent = true := by
  unfold get_om_roles_from_cli runCmd
  split
  · exact rolesAfterSid_noInstall env _ c [] (by simp)
  · dsimp only
    split
    · refine rolesAfterSid_noInstall env _ _ _ ?_
      simp [noInstallEvent]
    · simp [noInstallEvent]

theorem config_noInstall (env : Env) (c : Ctx) :
    (get_om_configuration env c).2.2.all noInstallEvent = true := by
  unfold get_om_configuration
  repeat' (first | split | dsimp only)
  all_goals simp_all [noInstallEvent]

theorem security_noInstall (env : Env) (c : Ctx) :
    (check_security_configuration env c).2.2.all noInstallEvent = true := by
  unfold check_security_configuration runCmd
  repeat' (first | split | dsimp only)
  all_goals simp_all [List.all_append, noInstallEvent]

theorem failoverLoop_noInstall (env : Env) (sid leaderH : String) :
    ∀ cands c, ((failoverLoop env sid leaderH c cands).2.all noInstallEvent = true) := by
  intro cands
  induction cands with
  | nil => intro c; simp [failoverLoop]
  | cons cand rest ih =>
    intro c
    have ih1 := ih { st := c.st, calls := c.calls + 1 }
    have ih2 := ih { st := c.st, calls := c.calls + 1 + 1 }
    have ih3 := ih { st := c.st, calls := c.calls + 1 + 1 + 1 }
    have ih0 := ih c
    clear ih
    unfold failoverLoop runCmd
    repeat' (first | split | dsimp only)
    all_goals simp_all [List.all_append, noInstallEvent]

theorem leader_health_noInstall (env : Env) (c : Ctx) :
    (verify_leader_health env c).2.2.all noInstallEvent = true := by
  unfold verify_leader_health runCmd
  repeat' (first | split | dsimp only)
  all_goals
    simp_all [List.all_append, noInstallEvent,
      failoverLoop_noInstall env (pyOpt c.st.service_id) (pyOpt c.st.leader_host)
        env.candidateHosts { c with calls := c.calls + 1 }]

theorem list_last_ratis_noInstall (env : Env) (c : Ctx) (hostArg : Option String)
    (isBefore : Bool) :
    (list_last_ratis_log env c hostArg isBefore).2.2.all noInstallEvent = true := by
  unfold list_last_ratis_log runCmd
  repeat' (first | split | dsimp only)
  all_goals simp_all [List.all_append, noInstallEvent]

theorem ratis_listings_noInstall (env : Env) (isBefore : Bool) (c : Ctx) :
    (ratis_listings env c isBefore).2.2.all noInstallEvent = true := by
  unfold ratis_listings
  have h1 := list_last_ratis_noInstall env c c.st.leader_host isBefore
  split
  · split <;> simp_all
  · split
    · simp_all
    next c1 ev1 heq =>
      have h2 := list_last_ratis_noInstall env c1 (some c1.st.follower_host) isBefore
      rw [heq] at h1
      split <;> simp_all [List.all_append]

theorem stopPoll_noInstall (env : Env) :
    ∀ n c acc, acc.all noInstallEvent = true →
      (stopPoll env c acc n).2.2.all noInstallEvent = true := by
  intro n
  induction n with
  | zero => intro c acc hacc; simp_all [stopPoll]
  | succ k ih =>
    intro c acc hacc
    unfold stopPoll runCmd
    dsimp only
    split
    · simp_all [List.all_append, noInstallEvent]
    · refine ih { c with calls := c.calls + 1 } _ ?_
      rw [List.all_append, hacc]
      simp [noInstallEvent]

theorem stop_noInstall (env : Env) (c : Ctx) :
    (stop_follower env c).2.2.all noInstallEvent = true := by
  unfold stop_follower
  try dsimp only
  split
  · simp
  next rn heq =>
    split
    · simp [noInstallEvent]
    · exact stopPoll_noInstall env _ _ _ (by simp [noInstallEvent])

theorem endpoint_noInstall (env : Env) (c : Ctx) :
    (test_checkpoint_endpoint env c).2.2.all noInstallEvent = true := by
  unfold test_checkpoint_endpoint runCmd
  repeat' (first | split | dsimp only)
  all_goals simp_all [noInstallEvent]

theorem download_noInstall (env : Env) (c : Ctx) :
    (download_checkpoint env c).2.2.all noInstallEvent = true := by
  unfold download_checkpoint runCmd
  repeat' (first | split | dsimp only)
  all_goals simp_all [noInstallEvent]

/-! ### Key outcome lemmas -/

/-- With the tar list test failing at every invocation (the downloaded
artifact is not a valid archive), `download_checkpoint` fails on every
path of a non-dry run. -/
theorem download_fails_when_tar_fails (env : Env) (c : Ctx)
    (hdry : c.st.dry_run = false)
    (htar : ∀ (n : Nat) (h f : String),
      ¬(env.exec n h (RCmd.tarTest f)).returncode = 0) :
    (download_checkpoint env c).1 = false := by
  unfold download_checkpoint runCmd
  repeat' (first | split | dsimp only)
  all_goals simp_all

/-- When every `pgrep` probe reports the process alive, the stop-phase
polling loop exhausts its bound, records the role as not stopped, and
returns failure. -/
theorem stopPoll_timeout (env : Env)
    (halive : ∀ (n : Nat) (h : String), (env.exec n h RCmd.pgrepOm).returncode = 0) :
    ∀ n c acc, (stopPoll env c acc n).1 = false ∧
      (stopPoll env c acc n).2.1.st.om_role_was_stopped = false := by
  intro n
  induction n with
  | zero => intro c acc; simp [stopPoll]
  | succ k ih =>
    intro c acc
    unfold stopPoll runCmd
    dsimp only
    split
    · simp_all [halive c.calls c.st.follower_host]
    · exact ih _ _

/-- Stop timeout at the phase level: `stop_follower` returns failure in a
non-dry run when the process never disappears. -/
theorem stop_follower_timeout_fails (env : Env) (c : Ctx)
    (hdry : c.st.dry_run = false)
    (halive : ∀ (n : Nat) (h : String), (env.exec n h RCmd.pgrepOm).returncode = 0) :
    (stop_follower env c).1 = false := by
  unfold stop_follower
  try dsimp only
  split
  · simp_all
  next rn heq =>
    split
    · simp_all
    · exact (stopPoll_timeout env halive _ _ _).1

/-- On a stop timeout, `om_role_was_stopped` is left `False` (it was
`False` from `__init__` and the timeout branch re-asserts it). -/
theorem stop_follower_timeout_flag (env : Env) (c : Ctx)
    (hdry : c.st.dry_run = false)
    (hflag : c.st.om_role_was_stopped = false)
    (halive : ∀ (n : Nat) (h : String), (env.exec n h RCmd.pgrepOm).returncode = 0) :
    (stop_follower env c).2.1.st.om_role_was_stopped = false := by
  unfold stop_follower
  try dsimp only
  split
  · simp_all
  next rn heq =>
    split
    · simp_all
    · exact (stopPoll_timeout env halive _ _ _).2

/-- When every `pgrep` probe reports the process absent, the start-phase
polling loop exhausts its bound and returns failure. -/
theorem startPoll_timeout (env : Env)
    (hdead : ∀ (n : Nat) (h : String), ¬(env.exec n h RCmd.pgrepOm).returncode = 0) :
    ∀ n c acc, (startPoll env c acc n).1 = false := by
  intro n
  induction n with
  | zero => intro c acc; simp [startPoll]
  | succ k ih =>
    intro c acc
    unfold startPoll runCmd
    dsimp only
    split
    · simp_all [hdead c.calls c.st.follower_host]
    · exact ih _ _

/-- Start timeout at the phase level: `start_follower` returns failure in
a non-dry run when the process never appears. -/
theorem start_follower_timeout (env : Env) (c : Ctx) (rn : String)
    (hrole : c.st.follower_role = some rn)
    (hdry : c.st.dry_run = false)
    (hdead : ∀ (n : Nat) (h : String), ¬(env.exec n h RCmd.pgrepOm).returncode = 0) :
    (start_follower env c).1 = false := by
  unfold start_follower
  try dsimp only
  split
  · simp_all
  · split
    · simp_all
    · exact startPoll_timeout env hdead _ _ _

/-- Cleanup emits no install command (it only ever removes the temp
directory). -/
theorem cleanup_noInstall (env : Env) (c : Ctx) :
    (cleanup env c).2.all noInstallEvent = true := by
  unfold cleanup runCmd
  repeat' (first | split | dsimp only)
  all_goals simp_all [noInstallEvent]

/-- Cleanup never issues a management-plane role command; in particular
it never attempts a `start`. -/
theorem cleanup_noStart (env : Env) (c : Ctx) :
    (cleanup env c).2.all noStartCommandEvent = true := by
  unfold cleanup runCmd
  repeat' (first | split | dsimp only)
  all_goals simp_all [noStartCommandEvent]

/-- Cleanup leaves the bootstrap state untouched. -/
theorem cleanup_state (env : Env) (c : Ctx) : (cleanup env c).1.st = c.st := by
  unfold cleanup runCmd
  repeat' (first | split | dsimp only)
  all_goals simp_all

/-- Every event of a dry run is `dryEventSafe`: no dry-guarded remote
command is executed and no role command is issued. -/
theorem run_bootstrap_dry_safe (env : Env) (c : Ctx)
    (hdry : c.st.dry_run = true) :
    (run_bootstrap env c).2.2.all dryEventSafe = true := by
  have h := run_bootstrap_master env c
  rw [hdry] at h
  refine event_all_mono ?_ _ h
  intro e he
  cases e <;> simp_all [eventOkFor, dryEventSafe]

/-- Every remote call of every run is issued with `use_sudo = False`. -/
theorem run_bootstrap_sudo_free (env : Env) (c : Ctx) :
    (run_bootstrap env c).2.2.all sudoFreeEvent = true := by
  refine event_all_mono ?_ _ (run_bootstrap_master env c)
  intro e he
  cases e <;> simp_all [eventOkFor, sudoFreeEvent]

/-- When the target process never disappears, a non-dry run fails: the
stop phase is reached with its timeout, or some earlier phase already
failed -- either way `run_bootstrap` returns `False`. -/
theorem run_fails_when_process_never_stops (env : Env) (c : Ctx)
    (hdry : c.st.dry_run = false)
    (halive : ∀ (n : Nat) (h : String), (env.exec n h RCmd.pgrepOm).returncode = 0) :
    (run_bootstrap env c).1 = false := by
  have habort := runPhases_abort_prefix (fun k => k.st.dry_run = false) (fun _ => true)
    [discover_cluster_info env, validate_ssh_connectivity env, validate_sudo_access env,
     check_snapshots_and_prompt env, get_om_roles_from_cli env, get_om_configuration env,
     check_security_configuration env, verify_leader_health env,
     (fun k => ratis_listings env k true)]
    (stop_follower env)
    [test_checkpoint_endpoint env, download_checkpoint env, extract_checkpoint env,
     backup_and_replace_database env, backup_ratis_logs env, start_follower env,
     verify_om_status env, (fun k => ratis_listings env k false),
     restart_if_stopped env, leadership_test_phase env]
    ?_ ?_ c hdry
  · have h2 : bootstrap_phases env =
        [discover_cluster_info env, validate_ssh_connectivity env, validate_sudo_access env,
         check_snapshots_and_prompt env, get_om_roles_from_cli env, get_om_configuration env,
         check_security_configuration env, verify_leader_health env,
         (fun k => ratis_listings env k true)] ++ stop_follower env ::
        [test_checkpoint_endpoint env, download_checkpoint env, extract_checkpoint env,
         backup_and_replace_database env, backup_ratis_logs env, start_follower env,
         verify_om_status env, (fun k => ratis_listings env k false),
         restart_if_stopped env, leadership_test_phase env] := rfl
    unfold run_bootstrap
    dsimp only
    rw [h2]
    exact habort.1
  · intro f hf
    simp only [List.mem_cons, List.not_mem_nil, or_false] at hf
    rcases hf with h | h | h | h | h | h | h | h | h <;> subst h
    · exact fun k hk => ⟨by dsimp only; rw [(discover_good env k).2]; exact hk, by simp⟩
    · exact fun k hk => ⟨by dsimp only; rw [(ssh_good env k).2]; exact hk, by simp⟩
    · exact fun k hk => ⟨by dsimp only; rw [(sudo_good env k).2]; exact hk, by simp⟩
    · exact fun k hk => ⟨by dsimp only; rw [(prompt_good env k).2]; exact hk, by simp⟩
    · exact fun k hk => ⟨by dsimp only; rw [(roles_good env k).2]; exact hk, by simp⟩
    · exact fun k hk => ⟨by dsimp only; rw [(config_good env k).2]; exact hk, by simp⟩
    · exact fun k hk => ⟨by dsimp only; rw [(security_good env k).2]; exact hk, by simp⟩
    · exact fun k hk => ⟨by dsimp only; rw [(leader_health_good env k).2]; exact hk, by simp⟩
    · exact fun k hk => ⟨by dsimp only; rw [(ratis_listings_good env true k).2]; exact hk, by simp⟩
  · intro k hk
    exact ⟨stop_follower_timeout_fails env k hk halive,
      by dsimp only; rw [(stop_good env k).2]; exact hk, by simp⟩

/-- When the downloaded artifact always fails the tar list test, a
non-dry run fails and its whole event trace (cleanup included) contains
no install command: no backup copy, no rename aside, no rename into
place, no chown, no extraction, no directory creation on the live
paths. -/
theorem run_aborts_on_bad_archive (env : Env) (c : Ctx)
    (hdry : c.st.dry_run = false)
    (htar : ∀ (n : Nat) (h f : String),
      ¬(env.exec n h (RCmd.tarTest f)).returncode = 0) :
    (run_bootstrap env c).1 = false ∧
    (run_bootstrap env c).2.2.all noInstallEvent = true := by
  have habort := runPhases_abort_prefix (fun k => k.st.dry_run = false) noInstallEvent
    [discover_cluster_info env, validate_ssh_connectivity env, validate_sudo_access env,
     check_snapshots_and_prompt env, get_om_roles_from_cli env, get_om_configuration env,
     check_security_configuration env, verify_leader_health env,
     (fun k => ratis_listings env k true), stop_follower env,
     test_checkpoint_endpoint env]
    (download_checkpoint env)
    [extract_checkpoint env, backup_and_replace_database env, backup_ratis_logs env,
     start_follower env, verify_om_status env, (fun k => ratis_listings env k false),
     restart_if_stopped env, leadership_test_phase env]
    ?_ ?_ c hdry
  · have h2 : bootstrap_phases env =
        [discover_cluster_info env, validate_ssh_connectivity env, validate_sudo_access env,
         check_snapshots_and_prompt env, get_om_roles_from_cli env, get_om_configuration env,
         check_security_configuration env, verify_leader_health env,
         (fun k => ratis_listings env k true), stop_follower env,
         test_checkpoint_endpoint env] ++ download_checkpoint env ::
        [extract_checkpoint env, backup_and_replace_database env, backup_ratis_logs env,
         start_follower env, verify_om_status env, (fun k => ratis_listings env k false),
         restart_if_stopped env, leadership_test_phase env] := rfl
    constructor
    · unfold run_bootstrap
      dsimp only
      rw [h2]
      exact habort.1
    · unfold run_bootstrap
      dsimp only
      rw [h2, List.all_append]
      have hcl := cleanup_noInstall env
        (runPhases ([discover_cluster_info env, validate_ssh_connectivity env,
          validate_sudo_access env, check_snapshots_and_prompt env,
          get_om_roles_from_cli env, get_om_configuration env,
          check_security_configuration env, verify_leader_health env,
          (fun k => ratis_listings env k true), stop_follower env,
          test_checkpoint_endpoint env] ++ download_checkpoint env ::
          [extract_checkpoint env, backup_and_replace_database env,
           backup_ratis_logs env, start_follower env, verify_om_status env,
           (fun k => ratis_listings env k false), restart_if_stopped env,
           leadership_test_phase env]) c).2.1
      rw [habort.2.2, hcl]
      simp
  · intro f hf
    simp only [List.mem_cons, List.not_mem_nil, or_false] at hf
    rcases hf with h | h | h | h | h | h | h | h | h | h | h <;> subst h
    · exact fun k hk => ⟨by dsimp only; rw [(discover_good env k).2]; exact hk,
        discover_noInstall env k⟩
    · exact fun k hk => ⟨by dsimp only; rw [(ssh_good env k).2]; exact hk,
        ssh_noInstall env k⟩
    · exact fun k hk => ⟨by dsimp only; rw [(sudo_good env k).2]; exact hk,
        sudo_noInstall env k⟩
    · exact fun k hk => ⟨by dsimp only; rw [(prompt_good env k).2]; exact hk,
        prompt_noInstall env k⟩
    · exact fun k hk => ⟨by dsimp only; rw [(roles_good env k).2]; exact hk,
        roles_noInstall env k⟩
    · exact fun k hk => ⟨by dsimp only; rw [(config_good env k).2]; exact hk,
        config_noInstall env k⟩
    · exact fun k hk => ⟨by dsimp only; rw [(security_good env k).2]; exact hk,
        security_noInstall env k⟩
    · exact fun k hk => ⟨by dsimp only; rw [(leader_health_good env k).2]; exact hk,
        leader_health_noInstall env k⟩
    · exact fun k hk => ⟨by dsimp only; rw [(ratis_listings_good env true k).2]; exact hk,
        ratis_listings_noInstall env true k⟩
    · exact fun k hk => ⟨by dsimp only; rw [(stop_good env k).2]; exact hk,
        stop_noInstall env k⟩
    · exact fun k hk => ⟨by dsimp only; rw [(endpoint_good env k).2]; exact hk,
        endpoint_noInstall env k⟩
  · intro k hk
    exact ⟨download_fails_when_tar_fails env k hk htar,
      by dsimp only; rw [(download_good env k).2]; exact hk,
      download_noInstall env k⟩

/-! ### Bounded-iteration lemmas for the polling loops -/

theorem stopPoll_remote_bound (env : Env) :
    ∀ n c acc, remoteCount (stopPoll env c acc n).2.2 ≤ remoteCount acc + n := by
  intro n
  induction n with
  | zero => intro c acc; simp [stopPoll]
  | succ k ih =>
    intro c acc
    unfold stopPoll runCmd
    dsimp only
    split
    · simp [remoteCount_append, remoteCount, Event.isRemote]
    · calc remoteCount (stopPoll env _ _ k).2.2 ≤
          remoteCount (acc ++ [Event.remote c.st.follower_host .pgrepOm false,
            Event.sleepSec 5]) + k := ih _ _
        _ ≤ remoteCount acc + (k + 1) := by
          simp [remoteCount_append, remoteCount, Event.isRemote]
          omega

theorem stopPoll_sleep_bound (env : Env) :
    ∀ n c acc, sleepSum (stopPoll env c acc n).2.2 ≤ sleepSum acc + 5 * n := by
  intro n
  induction n with
  | zero => intro c acc; simp [stopPoll]
  | succ k ih =>
    intro c acc
    unfold stopPoll runCmd
    dsimp only
    split
    · simp [sleepSum_append, sleepSum, Event.sleepSeconds]
    · calc sleepSum (stopPoll env _ _ k).2.2 ≤
          sleepSum (acc ++ [Event.remote c.st.follower_host .pgrepOm false,
            Event.sleepSec 5]) + 5 * k := ih _ _
        _ ≤ sleepSum acc + 5 * (k + 1) := by
          simp [sleepSum_append, sleepSum, Event.sleepSeconds]
          omega

theorem startPoll_remote_bound (env : Env) :
    ∀ n c acc, remoteCount (startPoll env c acc n).2.2 ≤ remoteCount acc + n := by
  intro n
  induction n with
  | zero => intro c acc; simp [startPoll]
  | succ k ih =>
    intro c acc
    unfold startPoll runCmd
    dsimp only
    split
    · simp [remoteCount_append, remoteCount, Event.isRemote]
    · calc remoteCount (startPoll env _ _ k).2.2 ≤
          remoteCount (acc ++ [Event.remote c.st.follower_host .pgrepOm false,
            Event.sleepSec 10]) + k := ih _ _
        _ ≤ remoteCount acc + (k + 1) := by
          simp [remoteCount_append, remoteCount, Event.isRemote]
          omega

theorem startPoll_sleep_bound (env : Env) :
    ∀ n c acc, sleepSum (startPoll env c acc n).2.2 ≤ sleepSum acc + 10 * n := by
  intro n
  induction n with
  | zero => intro c acc; simp [startPoll]
  | succ k ih =>
    intro c acc
    unfold startPoll runCmd
    dsimp only
    split
    · simp [sleepSum_append, sleepSum, Event.sleepSeconds]
    · calc sleepSum (startPoll env _ _ k).2.2 ≤
          sleepSum (acc ++ [Event.remote c.st.follower_host .pgrepOm false,
            Event.sleepSec 10]) + 10 * k := ih _ _
        _ ≤ sleepSum acc + 10 * (k + 1) := by
          simp [sleepSum_append, sleepSum, Event.sleepSeconds]
          omega

theorem refresh_sleepSum (env : Env) (c : Ctx) :
    sleepSum (refresh_om_roles env c).2.2 = 0 := by
  unfold refresh_om_roles runCmd
  repeat' (first | split | dsimp only)
  all_goals simp_all [sleepSum, Event.sleepSeconds]

/-- Cleanup with no allocated temp directory is a no-op. -/
theorem cleanup_none (env : Env) (c : Ctx) (h : c.st.temp_dir = none) :
    cleanup env c = (c, []) := by
  unfold cleanup
  simp [h, optTruthy]

/-! ### Concrete demonstration environments -/

/-- A successful remote command with empty output. -/
def okResult : CmdResult := { returncode := 0, stdout := "", stderr := "" }

/-- A failing remote command with empty output. -/
def failResult : CmdResult := { returncode := 1, stdout := "", stderr := "" }

/-- Role-level configuration carrying the database directory. -/
def dbItem : ConfigItem :=
  { name := "ozone.om.db.dirs", value := some "/d",
    effectiveValue := none, displayValue := none, defaultValue := none }

/-- Role-level configuration carrying the Ratis storage directory. -/
def ratisItem : ConfigItem :=
  { name := "ozone.om.ratis.storage.dir", value := some "/r",
    effectiveValue := none, displayValue := none, defaultValue := none }

/-- Shared management-plane oracle for the demonstration environments:
cluster discovered, service id `s`, follower role `r`, role configuration
with database and Ratis directories, all probes and prompts positive. -/
def baseEnv (e : Nat → String → RCmd → CmdResult) : Env :=
  { exec := e, cmHost := "cm", discoverOk := true, serviceIdFromCm := some "s",
    sshOk := true, sudoOk := true, sudoUserCollected := none,
    sudoRetestOk := false, promptOk := true, followerRoleNameFromCm := some "r",
    svcItems := [], roleItems := [dbItem, ratisItem], omGroupExists := true,
    groupItems := [], candidateHosts := [] }

/-- Execution oracle of a fully healthy bootstrap: leader `h1`, follower
`h2`; the follower's process is gone for the first ten invocations (the
stop poll) and present afterwards (the start poll). -/
def demoExec (n : Nat) (_h : String) (cmd : RCmd) : CmdResult :=
  match cmd with
  | .omRoles _ => { returncode := 0, stdout := "LEADER: h1\nFOLLOWER: h2", stderr := "" }
  | .pgrepOm => if n < 10 then failResult
                else { returncode := 0, stdout := "1234", stderr := "" }
  | .mktempDir _ => { returncode := 0, stdout := "/tmp/t", stderr := "" }
  | .findLastLog _ => failResult
  | .findCurrent _ => failResult
  | .grepErrors _ => failResult
  | _ => okResult

/-- The healthy demonstration environment. -/
def demoEnv : Env := baseEnv demoExec

/-- Initial context of a real (non-dry) run against follower `h2` with a
root SSH user and run id 7. -/
def demoRealCtx : Ctx :=
  { st := initState "h2" false none none (some "root") none false 7, calls := 0 }

/-- Initial context of the corresponding dry run. -/
def demoDryCtx : Ctx :=
  { st := initState "h2" true none none (some "root") none false 7, calls := 0 }

/-- Oracle in which the follower's process never disappears (every
`pgrep` probe succeeds): the stop poll can only time out. -/
def aliveExec (n : Nat) (h : String) (cmd : RCmd) : CmdResult :=
  match cmd with
  | .pgrepOm => { returncode := 0, stdout := "1234", stderr := "" }
  | _ => demoExec n h cmd

/-- Environment whose target process never stops. -/
def aliveEnv : Env := baseEnv aliveExec

/-- Oracle in which the stop succeeds immediately but the checkpoint
endpoint probe fails, so the run aborts after having stopped the
target. -/
def c5Exec (n : Nat) (h : String) (cmd : RCmd) : CmdResult :=
  match cmd with
  | .pgrepOm => failResult
  | .curlHead _ _ _ _ => failResult
  | _ => demoExec n h cmd

/-- Environment that fails right after the Stop phase. -/
def c5Env : Env := baseEnv c5Exec

/-- Oracle in which the checkpoint downloads but is not a valid tar
archive (the tar list test always fails). -/
def c6Exec (n : Nat) (h : String) (cmd : RCmd) : CmdResult :=
  match cmd with
  | .pgrepOm => failResult
  | .tarTest _ => failResult
  | _ => demoExec n h cmd

/-- Environment with a corrupt checkpoint archive. -/
def c6Env : Env := baseEnv c6Exec

/-- Oracle whose roles output names a leader but no followers at all. -/
def noFollowerExec (_n : Nat) (_h : String) (cmd : RCmd) : CmdResult :=
  match cmd with
  | .omRoles _ => { returncode := 0, stdout := "LEADER: h1", stderr := "" }
  | _ => okResult

/-- Environment whose parsed follower set is empty. -/
def noFollowerEnv : Env := baseEnv noFollowerExec

/-- Oracle in which the downloaded artifact is a syntactically valid tar
archive whose content nevertheless carries the literal text
`Exception` (the error-text grep finds matches). -/
def c3Exec (_n : Nat) (_h : String) (cmd : RCmd) : CmdResult :=
  match cmd with
  | .mktempDir _ => { returncode := 0, stdout := "/tmp/t", stderr := "" }
  | .grepErrors _ => { returncode := 0, stdout := "Exception: server error", stderr := "" }
  | _ => okResult

/-- Environment with an error-bearing but tar-valid artifact. -/
def c3Env : Env := baseEnv c3Exec

/-- Context positioned at the download phase: leader, protocol and port
already resolved. -/
def c3Ctx : Ctx :=
  { st := { initState "h2" false none none (some "root") none false 7 with
      leader_host := some "h1", om_protocol := some "http", om_port := some "9874" },
    calls := 0 }

/-- Environment whose role configuration has a Ratis directory but no
database directory. -/
def c7EnvNoDb : Env := { baseEnv demoExec with roleItems := [ratisItem] }

/-- Environment whose role configuration has a database directory but no
Ratis directory. -/
def c7EnvDbOnly : Env := { baseEnv demoExec with roleItems := [dbItem] }

/-- Context with the follower role already identified (as when the
configuration phase runs). -/
def c7Ctx : Ctx :=
  { st := { initState "h2" false none none (some "root") none false 7 with
      follower_role := some "r" }, calls := 0 }

/-! ### Claim C1 -/

/-- C1 counterexample: the claim that every call issued through the
remote executor during a dry run is read-only is false.  In the healthy
demonstration environment, the dry run executes remote commands that
mutate remote state -- `mktemp -d`, the `mkdir -p` calls for the
extraction and backup directories, and cleanup's `rm -rf` all run before
or outside the dry-run guards. -/
theorem c1_counterexample :
    demoDryCtx.st.dry_run = true ∧
    (run_bootstrap demoEnv demoDryCtx).2.2.any isRemoteMutatingEvent = true := by
  decide

/-- C1 amended: during a dry run no dry-guarded command (checkpoint
download, tar extraction, copy, rename, chown, log moves, kinit) is
executed and no management-plane role stop/start is issued -- those are
only logged; and on a fully healthy environment the dry run and the real
run both reach the successful terminal phase.  (Directory-creation
commands, cleanup's `rm -rf`, and leadership transfers are still
executed during a dry run, as the counterexample shows.) -/
theorem c1_dry_run_mutation_policy :
    (∀ (env : Env) (c : Ctx), c.st.dry_run = true →
      (run_bootstrap env c).2.2.all dryEventSafe = true) ∧
    (run_bootstrap demoEnv demoDryCtx).1 = true ∧
    (run_bootstrap demoEnv demoRealCtx).1 = true := by
  refine ⟨run_bootstrap_dry_safe, by decide, by decide⟩

/-- C1 witness: the dry-run guarantee instantiated on the healthy
demonstration environment. -/
theorem c1_witness :
    (run_bootstrap demoEnv demoDryCtx).2.2.all dryEventSafe = true :=
  c1_dry_run_mutation_policy.1 demoEnv demoDryCtx rfl

/-! ### Claim C2 -/

/-- Events that are not a checkpoint-endpoint probe (the first command of
the phase following Stop). -/
def noEndpointProbeEvent : Event → Bool
  | .remote _ (RCmd.curlHead _ _ _ _) _ => false
  | _ => true

/-- C2 counterexample: a stop-phase polling timeout is not a soft
failure.  With the target process never disappearing, the run returns
failure and never reaches the next phase (no checkpoint-endpoint probe is
ever issued), instead of logging a warning and continuing. -/
theorem c2_counterexample :
    (run_bootstrap aliveEnv demoRealCtx).1 = false ∧
    (run_bootstrap aliveEnv demoRealCtx).2.2.all noEndpointProbeEvent = true := by
  decide

/-- C2 amended: the polling bounds are as claimed (stop 120s at 5s, start
180s at 10s), but the stop timeout is a hard failure exactly like the
start timeout: `stop_follower` records the role as not stopped and
returns failure, and `run_bootstrap` therefore aborts. -/
theorem c2_stop_timeout_is_hard_failure :
    stop_max_wait_seconds = 120 ∧ stop_wait_interval = 5 ∧
    start_max_wait_seconds = 180 ∧ start_wait_interval = 10 ∧
    (∀ (env : Env) (c : Ctx), c.st.dry_run = false →
      (∀ (n : Nat) (h : String), (env.exec n h RCmd.pgrepOm).returncode = 0) →
      (stop_follower env c).1 = false) ∧
    (∀ (env : Env) (c : Ctx), c.st.dry_run = false →
      c.st.om_role_was_stopped = false →
      (∀ (n : Nat) (h : String), (env.exec n h RCmd.pgrepOm).returncode = 0) →
      (stop_follower env c).2.1.st.om_role_was_stopped = false) ∧
    (∀ (env : Env) (c : Ctx), c.st.dry_run = false →
      (∀ (n : Nat) (h : String), (env.exec n h RCmd.pgrepOm).returncode = 0) →
      (run_bootstrap env c).1 = false) ∧
    (∀ (env : Env) (c : Ctx), c.st.dry_run = false →
      c.st.follower_role.isSome = true →
      (∀ (n : Nat) (h : String), ¬(env.exec n h RCmd.pgrepOm).returncode = 0) →
      (start_follower env c).1 = false) := by
  refine ⟨rfl, rfl, rfl, rfl, ?_, ?_, ?_, ?_⟩
  · exact fun env c h1 h2 => stop_follower_timeout_fails env c h1 h2
  · exact fun env c h1 h2 h3 => stop_follower_timeout_flag env c h1 h2 h3
  · exact fun env c h1 h2 => run_fails_when_process_never_stops env c h1 h2
  · intro env c h1 h2 h3
    rcases ho : c.st.follower_role with _ | rn
    · rw [ho] at h2; cases h2
    · exact start_follower_timeout env c rn ho h1 h3

/-- C2 witness: the hard-failure behaviour on the always-alive
environment. -/
theorem c2_witness : (run_bootstrap aliveEnv demoRealCtx).1 = false :=
  c2_stop_timeout_is_hard_failure.2.2.2.2.2.2.1 aliveEnv demoRealCtx rfl
    (fun _ _ => rfl)

/-! ### Claim C3 -/

/-- C3 counterexample: an artifact whose content carries the literal
substring `Exception` (the gate's own error grep reports it) but which
passes the tar list test is accepted by `download_checkpoint` -- the
claim that such an artifact is rejected and the run aborted is false. -/
theorem c3_counterexample :
    strContains
      (c3Env.exec 0 "h2" (RCmd.grepErrors "/tmp/t/om-db-checkpoint.tar")).stdout
      "Exception" = true ∧
    (download_checkpoint c3Env c3Ctx).1 = true := by
  decide

/-- C3 amended: embedded error/exception text in the downloaded artifact
produces only a logged warning; the validity gate rejects solely on the
tar list test, and the download/validation phase itself never issues any
rename, copy, chown or extraction command, so any rejection happens
strictly before the live directory is touched. -/
theorem c3_error_text_only_warns :
    (∀ (env : Env) (c : Ctx),
      (download_checkpoint env c).2.2.all noInstallEvent = true) ∧
    (∀ (env : Env) (c : Ctx),
      c.st.dry_run = false →
      c.st.ozone_http_kerberos_enabled = false →
      optTruthy c.st.leader_host = true →
      (∀ (n : Nat) (h : String) (e : Nat),
        (env.exec n h (RCmd.mktempDir e)).returncode = 0) →
      (∀ (n : Nat) (h : String) (k : Bool) (p hh po f : String),
        (env.exec n h (RCmd.curlDownload k p hh po f)).returncode = 0) →
      (∀ (n : Nat) (h f : String), (env.exec n h (RCmd.lsLa f)).returncode = 0) →
      (∀ (n : Nat) (h f : String), (env.exec n h (RCmd.tarTest f)).returncode = 0) →
      (download_checkpoint env c).1 = true) ∧
    (∀ (env : Env) (c : Ctx), c.st.dry_run = false →
      (∀ (n : Nat) (h f : String),
        ¬(env.exec n h (RCmd.tarTest f)).returncode = 0) →
      (download_checkpoint env c).1 = false) := by
  refine ⟨download_noInstall, ?_, ?_⟩
  · intro env c h1 h2 h3 h4 h5 h6 h7
    unfold download_checkpoint runCmd
    repeat' (first | split | dsimp only)
    all_goals simp_all
  · exact fun env c h1 h2 => download_fails_when_tar_fails env c h1 h2

/-- C3 witness: acceptance of the error-text-bearing but tar-valid
artifact, via the amended theorem. -/
theorem c3_witness : (download_checkpoint c3Env c3Ctx).1 = true :=
  c3_error_text_only_warns.2.1 c3Env c3Ctx rfl rfl rfl
    (fun _ _ _ => rfl) (fun _ _ _ _ _ _ _ => rfl) (fun _ _ _ => rfl)
    (fun _ _ _ => rfl)

/-! ### Claim C4 -/

/-- Behaviour of the roles phase when the target is not among the parsed
followers: the phase either aborts (non-empty parse) or succeeds without
identifying a follower role (empty parse), and in both cases the
follower-role and temp-directory fields stay unset and only read-only
role queries are issued. -/
theorem roles_c4 (env : Env) (fh : String)
    (hnm : ∀ (n : Nat) (sid : Option String),
      (parseFollowers (env.exec n env.cmHost (RCmd.omRoles sid)).stdout).contains fh
        = false) :
    ∀ c, c.st.follower_host = fh → c.st.follower_role = none →
      c.st.temp_dir = none →
      ((get_om_roles_from_cli env c).2.1.st.follower_host = fh ∧
       (get_om_roles_from_cli env c).2.1.st.follower_role = none ∧
       (get_om_roles_from_cli env c).2.1.st.temp_dir = none) ∧
      (get_om_roles_from_cli env c).2.2.all nonDestructiveEvent = true := by
  intro c h1 h2 h3
  unfold get_om_roles_from_cli rolesAfterSid runCmd
  repeat' (first | split | dsimp only)
  all_goals
    simp_all [nonDestructiveEvent, RCmd.mutatesRemoteState, List.all_append]

/-- C4: whenever the parsed follower set of the roles output does not
contain the target hostname -- including the empty-parse case -- the run
aborts before the Stop phase: `run_bootstrap` from the initial state
returns failure and the whole event trace holds no role command and no
state-mutating remote command at all.  (A non-empty parse without the
target fails the roles phase directly; an empty parse leaves
`follower_role` unset, so the configuration phase fails -- both strictly
before Stop.) -/
theorem c4_membership_gate (env : Env) (fh : String) (dry ltt : Bool)
    (kt pr su sd : Option String) (ep : Nat)
    (hnm : ∀ (n : Nat) (sid : Option String),
      (parseFollowers (env.exec n env.cmHost (RCmd.omRoles sid)).stdout).contains fh
        = false) :
    (run_bootstrap env ⟨initState fh dry kt pr su sd ltt ep, 0⟩).1 = false ∧
    (run_bootstrap env ⟨initState fh dry kt pr su sd ltt ep, 0⟩).2.2.all
      nonDestructiveEvent = true := by
  have habort := runPhases_abort_prefix
    (fun k => k.st.follower_host = fh ∧ k.st.follower_role = none ∧
      k.st.temp_dir = none)
    nonDestructiveEvent
    [discover_cluster_info env, validate_ssh_connectivity env,
     validate_sudo_access env, check_snapshots_and_prompt env,
     get_om_roles_from_cli env]
    (get_om_configuration env)
    [check_security_configuration env, verify_leader_health env,
     (fun k => ratis_listings env k true), stop_follower env,
     test_checkpoint_endpoint env, download_checkpoint env,
     extract_checkpoint env, backup_and_replace_database env,
     backup_ratis_logs env, start_follower env, verify_om_status env,
     (fun k => ratis_listings env k false), restart_if_stopped env,
     leadership_test_phase env]
    ?_ ?_ ⟨initState fh dry kt pr su sd ltt ep, 0⟩ (by exact ⟨rfl, rfl, rfl⟩)
  · have h2 : bootstrap_phases env =
        [discover_cluster_info env, validate_ssh_connectivity env,
         validate_sudo_access env, check_snapshots_and_prompt env,
         get_om_roles_from_cli env] ++ get_om_configuration env ::
        [check_security_configuration env, verify_leader_health env,
         (fun k => ratis_listings env k true), stop_follower env,
         test_checkpoint_endpoint env, download_checkpoint env,
         extract_checkpoint env, backup_and_replace_database env,
         backup_ratis_logs env, start_follower env, verify_om_status env,
         (fun k => ratis_listings env k false), restart_if_stopped env,
         leadership_test_phase env] := rfl
    constructor
    · unfold run_bootstrap
      dsimp only
      rw [h2]
      exact habort.1
    · unfold run_bootstrap
      dsimp only
      rw [h2]
      rw [cleanup_none env _ habort.2.1.2.2]
      rw [List.all_append, habort.2.2]
      simp
  · intro f hf
    simp only [List.mem_cons, List.not_mem_nil, or_false] at hf
    rcases hf with h | h | h | h | h <;> subst h
    · intro k hk
      refine ⟨?_, by unfold discover_cluster_info; split <;> simp⟩
      unfold discover_cluster_info
      split <;> simp_all
    · intro k hk
      exact ⟨by simpa [validate_ssh_connectivity] using hk,
        by simp [validate_ssh_connectivity]⟩
    · intro k hk
      refine ⟨?_, ?_⟩
      · unfold validate_sudo_access
        repeat' (first | split | dsimp only)
        all_goals simp_all
      · unfold validate_sudo_access
        repeat' (first | split | dsimp only)
        all_goals simp
    · intro k hk
      exact ⟨by simpa [check_snapshots_and_prompt] using hk,
        by simp [check_snapshots_and_prompt]⟩
    · intro k hk
      have h := roles_c4 env fh hnm k hk.1 hk.2.1 hk.2.2
      exact ⟨h.1, h.2⟩
  · intro k hk
    have hres : get_om_configuration env k = (false, k, []) := by
      unfold get_om_configuration
      simp [hk.2.1]
    rw [hres]
    exact ⟨rfl, hk, by simp⟩

/-- C4 witness: the empty-follower-parse case on a concrete environment
whose roles output is `LEADER: h1` -- the run aborts with a read-only
trace. -/
theorem c4_witness :
    (run_bootstrap noFollowerEnv
      ⟨initState "h2" false none none (some "root") none false 7, 0⟩).1 = false ∧
    (run_bootstrap noFollowerEnv
      ⟨initState "h2" false none none (some "root") none false 7, 0⟩).2.2.all
        nonDestructiveEvent = true :=
  c4_membership_gate noFollowerEnv "h2" false false none none (some "root") none 7
    (fun _ _ => (by decide : (parseFollowers "LEADER: h1").contains "h2" = false))

/-! ### Claim C5 -/

/-- C5 counterexample: a run whose own Stop phase stopped the target
(`om_role_was_stopped = True` in the final state) and whose next phase
failed issues no `start` role command anywhere -- in particular the
Cleanup phase does not attempt a restart, contrary to the claim. -/
theorem c5_counterexample :
    (run_bootstrap c5Env demoRealCtx).2.1.st.om_role_was_stopped = true ∧
    (run_bootstrap c5Env demoRealCtx).1 = false ∧
    (run_bootstrap c5Env demoRealCtx).2.2.all noStartCommandEvent = true := by
  decide

/-- C5 amended: the Cleanup phase never attempts a restart -- it only
removes the remote temporary directory and leaves the run state
untouched; the only restart logic is step 7.2 of the success path, which
does nothing unless `om_role_was_stopped` is set; consequently a run that
stopped the target and then failed ends with the target down, as the
concrete failing run shows. -/
theorem c5_no_restart_on_aborted_run :
    (∀ (env : Env) (c : Ctx), (cleanup env c).1.st = c.st ∧
      (cleanup env c).2.all noStartCommandEvent = true) ∧
    (∀ (env : Env) (c : Ctx), c.st.om_role_was_stopped = false →
      restart_if_stopped env c = (true, c, [])) ∧
    ((run_bootstrap c5Env demoRealCtx).1 = false ∧
     (run_bootstrap c5Env demoRealCtx).2.1.st.om_role_was_stopped = true ∧
     (run_bootstrap c5Env demoRealCtx).2.2.all noStartCommandEvent = true) := by
  refine ⟨fun env c => ⟨cleanup_state env c, cleanup_noStart env c⟩, ?_, by decide⟩
  intro env c h
  unfold restart_if_stopped
  simp [h]

/-- C5 witness: the step-7.2 restart logic is inert when the run did not
stop the role. -/
theorem c5_witness :
    restart_if_stopped demoEnv demoRealCtx = (true, demoRealCtx, []) :=
  c5_no_restart_on_aborted_run.2.1 demoEnv demoRealCtx rfl

/-! ### Claim C6 -/

/-- C6: when the downloaded checkpoint fails the tar list test, the
(non-dry) run aborts with exit code 1, no install command is ever issued
(no backup copy, rename aside, rename into place, chown, extraction or
directory creation on the live paths -- in particular the
ExtractCheckpoint phase is never reached), and Cleanup removes the remote
temporary directory whenever one was allocated, as the concrete corrupt-
archive run demonstrates end to end. -/
theorem c6_bad_archive_aborts_cleanly :
    (∀ (env : Env) (c : Ctx), c.st.dry_run = false →
      (∀ (n : Nat) (h f : String),
        ¬(env.exec n h (RCmd.tarTest f)).returncode = 0) →
      (run_bootstrap env c).1 = false ∧
      exit_code (run_bootstrap env c).1 = 1 ∧
      (run_bootstrap env c).2.2.all noInstallEvent = true) ∧
    (∀ (env : Env) (c : Ctx), optTruthy c.st.temp_dir = true →
      (cleanup env c).2 =
        [Event.remote c.st.follower_host (RCmd.rmRf (pyOpt c.st.temp_dir)) false]) ∧
    ((run_bootstrap c6Env demoRealCtx).1 = false ∧
     (run_bootstrap c6Env demoRealCtx).2.2.contains
        (Event.remote "h2" (RCmd.rmRf "/tmp/t") false) = true ∧
     (run_bootstrap c6Env demoRealCtx).2.2.all noInstallEvent = true) := by
  refine ⟨?_, ?_, by decide⟩
  · intro env c h1 h2
    have h := run_aborts_on_bad_archive env c h1 h2
    exact ⟨h.1, by rw [h.1]; rfl, h.2⟩
  · intro env c h
    unfold cleanup runCmd
    simp [h]

/-- C6 witness: the abort guarantee instantiated on the corrupt-archive
environment. -/
theorem c6_witness :
    (run_bootstrap c6Env demoRealCtx).1 = false ∧
    exit_code (run_bootstrap c6Env demoRealCtx).1 = 1 ∧
    (run_bootstrap c6Env demoRealCtx).2.2.all noInstallEvent = true :=
  c6_bad_archive_aborts_cleanly.1 c6Env demoRealCtx rfl
    (fun _ _ _ => (by decide : ¬failResult.returncode = 0))

/-! ### Claim C7 -/

/-- C7: configuration-resolution error asymmetry.  An unresolvable data
directory makes `get_om_configuration` fail (aborting the run); an
unresolvable consensus-log directory leaves the phase successful with
`ratis_dir` unset, and the later log-backup phase is then skipped,
returning success without issuing any remote command. -/
theorem c7_config_error_asymmetry :
    (∀ (env : Env) (c : Ctx), c.st.follower_role.isSome = true →
      env.roleItems.isEmpty = false →
      ((resolveOmConfig env.svcItems env.roleItems).db = none →
        (get_om_configuration env c).1 = false) ∧
      ((resolveOmConfig env.svcItems env.roleItems).db.isSome = true →
        (get_om_configuration env c).1 = true ∧
        (get_om_configuration env c).2.1.st.ratis_dir =
          (resolveOmConfig env.svcItems env.roleItems).ratis)) ∧
    (∀ (env : Env) (c : Ctx), c.st.ratis_dir = none →
      backup_ratis_logs env c = (true, c, [])) := by
  constructor
  · intro env c h1 h2
    constructor
    · intro hdb
      unfold get_om_configuration
      simp [h1, h2, hdb]
    · intro hdb
      unfold get_om_configuration
      simp [h1, h2, hdb]
  · intro env c h
    unfold backup_ratis_logs
    simp [h, optTruthy]

/-- C7 witness: a configuration with a Ratis directory but no database
directory is fatal; one with a database directory but no Ratis directory
succeeds with `ratis_dir` unset, and the log-backup phase is then a
successful no-op. -/
theorem c7_witness :
    (get_om_configuration c7EnvNoDb c7Ctx).1 = false ∧
    (get_om_configuration c7EnvDbOnly c7Ctx).1 = true ∧
    (get_om_configuration c7EnvDbOnly c7Ctx).2.1.st.ratis_dir = none ∧
    backup_ratis_logs c7EnvDbOnly demoRealCtx = (true, demoRealCtx, []) := by
  refine ⟨(c7_config_error_asymmetry.1 c7EnvNoDb c7Ctx rfl rfl).1 (by decide),
    ((c7_config_error_asymmetry.1 c7EnvDbOnly c7Ctx rfl rfl).2 (by decide)).1,
    ((c7_config_error_asymmetry.1 c7EnvDbOnly c7Ctx rfl rfl).2 (by decide)).2.trans
      (by decide),
    c7_config_error_asymmetry.2 c7EnvDbOnly demoRealCtx rfl⟩

/-! ### Claim C8 -/

/-- C8: bounded execution.  The remote executor runs every command under
a fixed 300-second ceiling and on expiry returns the synthetic
`CompletedProcess` with exit code -1 (non-zero) instead of hanging; the
stop poll issues at most `120 / 5 = 24` probes and sleeps at most 120
seconds, the start poll at most `180 / 10 = 18` probes and 180 seconds,
and the leadership-settle delay of the verification phase is exactly the
constant 30 seconds -- every wait loop of the workflow is bounded. -/
theorem c8_bounded_remote_execution :
    remote_command_timeout_seconds = 300 ∧
    timed_out_result.returncode = -1 ∧
    ¬timed_out_result.returncode = 0 ∧
    stop_max_wait_seconds / stop_wait_interval = 24 ∧
    start_max_wait_seconds / start_wait_interval = 18 ∧
    (∀ (env : Env) (c : Ctx), remoteCount (stop_follower env c).2.2 ≤ 24) ∧
    (∀ (env : Env) (c : Ctx), sleepSum (stop_follower env c).2.2 ≤ 120) ∧
    (∀ (env : Env) (c : Ctx), remoteCount (start_follower env c).2.2 ≤ 18) ∧
    (∀ (env : Env) (c : Ctx), sleepSum (start_follower env c).2.2 ≤ 180) ∧
    (∀ (env : Env) (c : Ctx), sleepSum (verify_om_status env c).2.2 = 30) := by
  refine ⟨rfl, rfl, by decide, rfl, rfl, ?_, ?_, ?_, ?_, ?_⟩
  · intro env c
    unfold stop_follower
    try dsimp only
    split
    · simp [remoteCount]
    next rn heq =>
      split
      · simp [remoteCount, Event.isRemote]
      · have h := stopPoll_remote_bound env (stop_max_wait_seconds / stop_wait_interval)
          { c with st := { c.st with follower_role := some rn } }
          [Event.roleCommand "stop" rn]
        simpa [remoteCount, Event.isRemote] using h
  · intro env c
    unfold stop_follower
    try dsimp only
    split
    · simp [sleepSum]
    next rn heq =>
      split
      · simp [sleepSum, Event.sleepSeconds]
      · have h := stopPoll_sleep_bound env (stop_max_wait_seconds / stop_wait_interval)
          { c with st := { c.st with follower_role := some rn } }
          [Event.roleCommand "stop" rn]
        simpa [sleepSum, Event.sleepSeconds] using h
  · intro env c
    unfold start_follower
    try dsimp only
    split
    · simp [remoteCount]
    next rn heq =>
      split
      · simp [remoteCount, Event.isRemote]
      · have h := startPoll_remote_bound env (start_max_wait_seconds / start_wait_interval)
          c [Event.roleCommand "start" rn]
        simpa [remoteCount, Event.isRemote] using h
  · intro env c
    unfold start_follower
    try dsimp only
    split
    · simp [sleepSum]
    next rn heq =>
      split
      · simp [sleepSum, Event.sleepSeconds]
      · have h := startPoll_sleep_bound env (start_max_wait_seconds / start_wait_interval)
          c [Event.roleCommand "start" rn]
        simpa [sleepSum, Event.sleepSeconds] using h
  · intro env c
    unfold verify_om_status
    try dsimp only
    simp [sleepSum, Event.sleepSeconds]
    have := refresh_sleepSum env c
    simp [sleepSum] at this
    simp [this]

/-! ### Claim C9 -/

/-- C9: Cleanup is idempotent.  One invocation leaves the bootstrap state
unchanged; a second invocation on the resulting state also leaves it
unchanged and issues exactly the same (repeat-safe `rm -rf`) events as
the first -- and `cleanup` has no failure result at all: failures of the
removal are only warnings. -/
theorem c9_cleanup_idempotent :
    ∀ (env : Env) (c : Ctx),
      (cleanup env c).1.st = c.st ∧
      (cleanup env (cleanup env c).1).1.st = c.st ∧
      (cleanup env (cleanup env c).1).2 = (cleanup env c).2 := by
  intro env c
  unfold cleanup runCmd
  repeat' (first | split | dsimp only)
  all_goals simp_all

/-! ### Claim C10 -/

/-- C10: no workflow phase ever executes a remote command with sudo
elevation.  Every event of every run carries `use_sudo = False` (all call
sites leave the parameter at its default), and with `use_sudo = False`
the command actually handed to ssh is exactly the kinit-wrapped command,
never wrapped in `sudo -u`; so the sudo-user setting affects only the
validation probes. -/
theorem c10_no_sudo_elevation :
    (∀ (env : Env) (c : Ctx),
      (run_bootstrap env c).2.2.all sudoFreeEvent = true) ∧
    (∀ (st : BootstrapState) (command : String),
      build_final_command st command false = kinit_wrap st command) := by
  refine ⟨run_bootstrap_sudo_free, ?_⟩
  intro st command
  unfold build_final_command
  simp
